import Mathlib

/-!
Verification development for the DeepMIP validation-table scripts
(`plot_z-scores.py`, `regrid_deepmip_data.py` and the dictionaries package).

The Python scripts are shallowly embedded: floats are modelled as exact
rationals (`ℚ`), NaN/missing cells as `none : Option ℚ`, and the square root
used by the sample standard deviation is kept abstract as any function
`ℚ → ℚ` that is nonnegative on nonnegative inputs and vanishes exactly at 0
(the properties of the real square root that the verified claims depend on).
Fallible code returns an explicit outcome type recording normal results,
`sys.exit` terminations (with the printed diagnostic and the exit status) and
uncaught Python exceptions.
-/

namespace DeepMIP

/-- Round to the nearest integer, ties to even — the rounding mode of
`np.round` (idealised over exact rationals). -/
def roundHalfEven (q : ℚ) : ℤ :=
  let f : ℤ := ⌊q⌋
  let r : ℚ := q - f
  if r < 1/2 then f
  else if 1/2 < r then f + 1
  else if f % 2 = 0 then f else f + 1

/-- `np.round(x, 1)`: round to one decimal place, ties to even. -/
def round1 (q : ℚ) : ℚ := (roundHalfEven (q * 10) : ℚ) / 10

/-- Median of a list of rationals, as computed by `np.nanmedian` /
`pandas.DataFrame.median` on the non-NaN entries: sort, take the middle
element (odd length) or the average of the two middle elements (even
length); `none` on the empty list. -/
def medianQ (xs : List ℚ) : Option ℚ :=
  if xs.length = 0 then none
  else
    let s := List.insertionSort (· ≤ ·) xs
    let n := xs.length
    if n % 2 = 1 then some (s.getD (n / 2) 0)
    else some ((s.getD (n / 2 - 1) 0 + s.getD (n / 2) 0) / 2)

/-- Sample variance (`ddof = 1`, the default of `pandas.DataFrame.std`):
`Σ (x - mean)² / (n - 1)`; `none` (NaN) when fewer than two values. -/
def sampleVariance (xs : List ℚ) : Option ℚ :=
  if xs.length ≤ 1 then none
  else
    let n : ℚ := xs.length
    let mean := xs.sum / n
    some (((xs.map (fun x => (x - mean) ^ 2)).sum) / (n - 1))

/-- An abstract square root: any `ℚ → ℚ` function that is nonnegative on
nonnegative inputs and vanishes exactly at `0`.  The real square root used
by `pandas.DataFrame.std` has these properties (its irrational values are
never needed by the claims below, which only depend on the sign and the
zero set of the standard deviation). -/
structure SqrtFn where
  f : ℚ → ℚ
  nonneg : ∀ q : ℚ, 0 ≤ q → 0 ≤ f q
  eq_zero_iff : ∀ q : ℚ, 0 ≤ q → (f q = 0 ↔ q = 0)

/-- A concrete `SqrtFn` instance used to evaluate witnesses. -/
def sqrtTrivial : SqrtFn where
  f := fun q => if q = 0 then 0 else if q < 0 then -1 else 1
  nonneg := by
    intro q hq
    by_cases h0 : q = 0
    · simp [h0]
    · have : ¬ q < 0 := not_lt.mpr hq
      simp [h0, this]
  eq_zero_iff := by
    intro q hq
    by_cases h0 : q = 0
    · simp [h0]
    · have : ¬ q < 0 := not_lt.mpr hq
      simp [h0, this]

/-- Sample standard deviation (`pandas.DataFrame.std`, `ddof = 1`):
square root of the sample variance; `none` (NaN) when fewer than two
values. -/
def sampleStd (S : SqrtFn) (xs : List ℚ) : Option ℚ :=
  (sampleVariance xs).map S.f

/-! ## Static dictionaries

`dictionaries/deepmip_variables.py` builds `variable_dict` by successive
insertion; Python dicts preserve insertion order, so it is embedded as an
association list in source order.  The key `uas` is assigned twice with an
identical record; the second assignment overwrites the first in place, so a
single entry at the first position is the faithful embedding.  The `label`
key is present only on some records and is read nowhere, hence `Option`. -/

/-- One record of `variable_dict`: longname, optional label, unit,
dimensionality and realm, exactly as in `deepmip_variables.py`. -/
structure VariableInfo where
  longname : String
  label : Option String
  unit : String
  dimensions : Nat
  realm : String
deriving DecidableEq

/-- The DeepMIP variable dictionary of `dictionaries/deepmip_variables.py`,
in insertion order. -/
def variable_dict : List (String × VariableInfo) := [
  ("tas", ⟨"Near-surface air temperature", some "temperature", "K", 3, "atmos"⟩),
  ("pr", ⟨"Precipitation", some "precipitation", "kgm^{-2}s^{-1}", 3, "atmos"⟩),
  ("ts", ⟨"Surface skin temperature", none, "K", 3, "atmos"⟩),
  ("evspsbl", ⟨"Total evaporation", none, "kgm^{-2}s^{-1}", 3, "atmos"⟩),
  ("clt", ⟨"Total cloud cover fraction", none, "[0,1]", 3, "atmos"⟩),
  ("rlds", ⟨"Surface downwelling longwave radiation", none, "Wm^{-2}", 3, "atmos"⟩),
  ("rlus", ⟨"Surface upwelling longwave radiation", none, "Wm^{-2}", 3, "atmos"⟩),
  ("rsds", ⟨"Surface downwelling shortwave radiation", none, "Wm^{-2}", 3, "atmos"⟩),
  ("rsus", ⟨"Surface upwelling shortwave radiation", none, "Wm^{-2}", 3, "atmos"⟩),
  ("rsdt", ⟨"TOA incident shortwave radiation", none, "Wm^{-2}", 3, "atmos"⟩),
  ("rsut", ⟨"TOA outgoing shortwave radiation", none, "Wm^{-2}", 3, "atmos"⟩),
  ("rlut", ⟨"TOA outgoing longwave radiation", none, "Wm^{-2}", 3, "atmos"⟩),
  ("rldscs", ⟨"Surface downwelling longwave radiation (clear sky)", none, "Wm^{-2}", 3, "atmos"⟩),
  ("rsdscs", ⟨"Surface downwelling shortwave radiation (clear sky)", none, "Wm^{-2}", 3, "atmos"⟩),
  ("rsuscs", ⟨"Surface upwelling shortwave radiation (clear sky)", none, "Wm^{-2}", 3, "atmos"⟩),
  ("rsutcs", ⟨"TOA outgoing shortwave radiation (clear sky)", none, "Wm^{-2}", 3, "atmos"⟩),
  ("rlutcs", ⟨"TOA outgoing longwave radiation (clear sky)", none, "Wm^{-2}", 3, "atmos"⟩),
  ("hfss", ⟨"Sensible heat flux (upward)", none, "Wm^{-2}", 3, "atmos"⟩),
  ("hfls", ⟨"Latent heat flux (upward)", none, "Wm^{-2}", 3, "atmos"⟩),
  ("uas", ⟨"Near-surface eastward wind", none, "ms^{-1}", 3, "atmos"⟩),
  ("vas", ⟨"Near-surface northward wind", none, "ms^{-1}", 3, "atmos"⟩),
  ("tauu", ⟨"Surface eastward wind stress", none, "Nm^{-2}", 3, "atmos"⟩),
  ("tauv", ⟨"Surface northward wind stress", none, "Nm^{-2}", 3, "atmos"⟩),
  ("psl", ⟨"Mean sea level pressure", none, "Pa", 3, "atmos"⟩),
  ("ps", ⟨"Surface pressure", none, "Pa", 3, "atmos"⟩),
  ("ua", ⟨"Eastward wind on model levels", none, "ms^{-1}", 4, "atmos"⟩),
  ("va", ⟨"Northward wind on model levels", none, "ms^{-1}", 4, "atmos"⟩),
  ("wa", ⟨"Vertical wind on model levels", none, "ms^{-1}", 4, "atmos"⟩),
  ("uap", ⟨"Eastward wind on pressure levels", none, "ms^{-1}", 4, "atmos"⟩),
  ("vap", ⟨"Northward wind on pressure levels", none, "ms^{-1}", 4, "atmos"⟩),
  ("wap", ⟨"Vertical wind on pressure levels", none, "Pas^{-1}", 4, "atmos"⟩),
  ("zg", ⟨"Geopotential height on pressure levels", none, "m", 4, "atmos"⟩),
  ("ta", ⟨"Temperature on pressure levels", none, "K", 4, "atmos"⟩),
  ("hus", ⟨"Specific humidity on pressure levels", none, "kgkg^{-1}", 4, "atmos"⟩),
  ("cl", ⟨"Cloud fraction on pressure levels", none, "[0,1]", 4, "atmos"⟩),
  ("cll", ⟨"Low-level cloud fraction", none, "[0,1]", 3, "atmos"⟩),
  ("clm", ⟨"Medium-level cloud fraction", none, "[0,1]", 3, "atmos"⟩),
  ("clh", ⟨"High-level cloud fraction", none, "[0,1]", 3, "atmos"⟩),
  ("tos", ⟨"Sea surface temperature", some "temperature", "°C", 3, "ocean"⟩),
  ("siconc", ⟨"Sea-ice fraction", none, "[0,1]", 3, "ocean"⟩),
  ("uo", ⟨"Eastward velocity on model levels", none, "cms^{-1}", 4, "ocean"⟩),
  ("vo", ⟨"Northward velocity on model levels", none, "cms^{-1}", 4, "ocean"⟩),
  ("wo", ⟨"Vertical velocity on model levels", none, "cms^{-1}", 4, "ocean"⟩),
  ("thetao", ⟨"Potential temperature on model levels", none, "°C", 4, "ocean"⟩),
  ("so", ⟨"Salinity on model levels", none, "psu", 4, "ocean"⟩),
  ("mlotst", ⟨"Mixed-layer depth", none, "m", 3, "ocean"⟩),
  ("zos", ⟨"Sea surface height", none, "m", 3, "ocean"⟩),
  ("tauuo", ⟨"Surface eastward wind stress (on ocean grid)", none, "Nm^{-2}", 3, "ocean"⟩),
  ("tauvo", ⟨"Surface northward wind stress (on ocean grid)", none, "Nm^{-2}", 3, "ocean"⟩),
  ("hfno", ⟨"Net surface heat flux (on ocean grid)", none, "Wm^{-2}", 3, "ocean"⟩),
  ("wfno", ⟨"Net surface freshwater flux (on ocean grid)", none, "kgm^{-2}s^{-1}", 3, "ocean"⟩),
  ("difvto", ⟨"Vertical ocean tracer diffusivity", none, "m^{-2}s^{-1}", 4, "ocean"⟩),
  ("difvmo", ⟨"Vertical ocean momentum diffusivity", none, "m^{-2}s^{-1}", 4, "ocean"⟩),
  ("sftbarot", ⟨"Barotropic streamfunction", none, "Sv", 3, "ocean"⟩),
  ("sftmyz", ⟨"Global overturning streamfunction", none, "Sv", 3, "ocean"⟩),
  ("sftlf", ⟨"Land-sea mask (on atmospheric grid)", none, "[0,1]", 2, "atmos"⟩),
  ("orog", ⟨"Topography (on atmospheric grid)", none, "[0,1]", 2, "atmos"⟩),
  ("deptho", ⟨"Bathymetry (on ocean grid)", none, "[0,1]", 2, "ocean"⟩)]

/-- One record of `model_dict`: the fields the scripts read.
`plot_z-scores.py` reads `family` and `abbrv`; `regrid_deepmip_data.py`
reads `family` and `exps`. -/
structure ModelInfo where
  versn : String
  family : String
  abbrv : String
  exps : List String
deriving DecidableEq

/-- Modelled from the spec: the module `dictionaries.deepmip_eocene_p1_models`
imported by both scripts is not present under `src/` (only a hyphen-named
variant `deepmip_eocene-p1-models.py`, which cannot be the imported module
and whose records carry the family value under the key `group`).  The spec
describes the model record as carrying a "model family/group" and names
`CESM1.2-CAM5 → family CESM`; the entries below take identifiers, version
tags, abbreviations and experiment lists from the adjacent variant file,
with its `group` value as the `family` field.  The unread `gmst`, `rotation`
and `CMIP generation` keys are omitted. -/
def model_dict : List (String × ModelInfo) := [
  ("CESM1.2-CAM5", ⟨"v1.0", "CESM", "CESM",
    ["deepmip-eocene-p1-PI", "deepmip-eocene-p1-x1", "deepmip-eocene-p1-x3",
     "deepmip-eocene-p1-x6", "deepmip-eocene-p1-x9"]⟩),
  ("COSMOS-landveg-r2413", ⟨"v1.0", "COSMOS", "COSMOS",
    ["deepmip-eocene-p1-PI", "deepmip-eocene-p1-x1", "deepmip-eocene-p1-x3",
     "deepmip-eocene-p1-x4"]⟩),
  ("GFDL-CM2.1", ⟨"v1.0", "GFDL", "GFDL",
    ["deepmip-eocene-p1-PI", "deepmip-eocene-p1-x1", "deepmip-eocene-p1-x2",
     "deepmip-eocene-p1-x3", "deepmip-eocene-p1-x4", "deepmip-eocene-p1-x6"]⟩),
  ("HadCM3B-M2.1aN", ⟨"v1.0", "HadCM3", "HadCM3",
    ["deepmip-eocene-p1-PI", "deepmip-eocene-p1-x1", "deepmip-eocene-p1-x2",
     "deepmip-eocene-p1-x3"]⟩),
  ("HadCM3BL-M2.1aN", ⟨"v1.0", "HadCM3", "HadCM3L",
    ["deepmip-eocene-p1-PI", "deepmip-eocene-p1-x1", "deepmip-eocene-p1-x2",
     "deepmip-eocene-p1-x3"]⟩),
  ("INM-CM4-8", ⟨"v1.0", "INMCM", "INM",
    ["deepmip-eocene-p1-PI", "deepmip-eocene-p1-x6"]⟩),
  ("IPSLCM5A2", ⟨"v1.0", "IPSL", "IPSL",
    ["deepmip-eocene-p1-PI", "deepmip-eocene-p1-x1.5", "deepmip-eocene-p1-x3"]⟩),
  ("MIROC4m", ⟨"v1.0", "MIROC", "MIROC",
    ["deepmip-eocene-p1-PI", "deepmip-eocene-p1-x1", "deepmip-eocene-p1-x2",
     "deepmip-eocene-p1-x3"]⟩),
  ("NorESM1-F", ⟨"v1.0", "NorESM", "NorESM",
    ["deepmip-eocene-p1-PI", "deepmip-eocene-p1-x2", "deepmip-eocene-p1-x4"]⟩)]

/-- Keys of `exp_dict` from
`dictionaries/deepmip_eocene_p1_experiments.py`, in insertion order (the
orchestrator only iterates over the keys). -/
def exp_dict_keys : List String :=
  ["deepmip-eocene-p1-PI", "deepmip-eocene-p1-x1", "deepmip-eocene-p1-x1.5",
   "deepmip-eocene-p1-x2", "deepmip-eocene-p1-x3", "deepmip-eocene-p1-x4",
   "deepmip-eocene-p1-x6", "deepmip-eocene-p1-x9"]

/-- `DBDIR` constant of `plot_z-scores.py`. -/
def DBDIR : String := "/data/deepmip-eocene-p1"

/-- `VERSION` constant of `plot_z-scores.py`. -/
def VERSION : String := "v1.0"

/-- `GRID` constant of `plot_z-scores.py`. -/
def GRID : String := "r180x90"

/-- `REGRID_DIR` constant of `plot_z-scores.py`. -/
def REGRID_DIR : String := DBDIR ++ "/validation_tables/data"

/-- `table_list` constant of `plot_z-scores.py`. -/
def table_list : List String := ["atmos", "ocean"]

/-- `time_list` constant of `plot_z-scores.py`. -/
def time_list : List String := ["mean", "time_series"]

/-! ## Outcomes of running script fragments -/

/-- Result of executing a fragment of the Python script: a normal value,
a `sys.exit` termination carrying the diagnostic line printed just before
it and the process exit status (`sys.exit()` with no argument exits with
status 0), or an uncaught Python exception. -/
inductive PyResult (α : Type) where
  | ok : α → PyResult α
  | exited : String → Nat → PyResult α
  | raised : String → PyResult α
deriving DecidableEq

/-- The exit status observed by the OS, when the fragment terminated the
process via `sys.exit`. -/
def PyResult.exitStatus {α : Type} : PyResult α → Option Nat
  | .exited _ c => some c
  | _ => none

/-! ## File locator (`construct_filename`, lines 64–74) -/

/-- `construct_filename` of `plot_z-scores.py`.  A `time_key` other than
`"mean"`/`"time_series"` leaves the Python local `directory` unbound and
the f-string raises; every valid call returns the deterministic path. -/
def construct_filename (e_key v_key m_key : String) (model_info : ModelInfo)
    (variable_info : VariableInfo) (time_key : String) : PyResult String :=
  match (if time_key = "mean" then some "climatology"
         else if time_key = "time_series" then some "time_series"
         else none) with
  | none => .raised "UnboundLocalError: local variable directory referenced before assignment"
  | some directory =>
    if variable_info.dimensions > 2 then
      .ok (DBDIR ++ "/" ++ model_info.family ++ "/" ++ m_key ++ "/" ++ e_key ++ "/" ++
           VERSION ++ "/" ++ directory ++ "/" ++
           v_key ++ "_" ++ m_key ++ "_" ++ e_key ++ "_v1.0." ++ time_key ++ ".nc")
    else
      .ok (DBDIR ++ "/" ++ model_info.family ++ "/" ++ m_key ++ "/" ++ e_key ++ "/" ++
           VERSION ++ "/" ++ directory ++ "/" ++
           v_key ++ "_" ++ m_key ++ "_" ++ e_key ++ "_v1.0.nc")

/-! ## Regridder (`regrid_file`, lines 81–107) -/

/-- `os.path.basename`: the component after the last path separator. -/
def basename (path : String) : String := (path.splitOn "/").getLastD path

/-- Python `str.replace`, specialised to the `.replace(".nc", suffix)`
calls of the script (Lean `String.replace` likewise replaces every
occurrence, matching Python's semantics). -/
def replaceNc (name suffix : String) : String := name.replace ".nc" suffix

/-- Environment of one `regrid_file` call: whether the expected output
already exists on disk, and whether the external CDO invocation raises
(with which message). -/
structure RegridEnv where
  outputExists : Bool
  cdoError : Option String

/-- `regrid_file` of `plot_z-scores.py`: memoized by output existence;
a CDO failure prints `Error regridding ...` and calls `sys.exit()` —
exit status 0. -/
def regrid_file (env : RegridEnv) (input_file : String) (time_key : String)
    (grid_def : String) : PyResult String :=
  let regridded_file :=
    REGRID_DIR ++ "/" ++ replaceNc (basename input_file) ("." ++ grid_def ++ ".nc")
  if env.outputExists then .ok regridded_file
  else
    match env.cdoError with
    | some e => .exited ("Error regridding " ++ input_file ++ ": " ++ e) 0
    | none =>
      -- when `time_key` is neither "mean" nor "time_series" no CDO call
      -- happens and the path is returned unwritten; the oracle `cdoError`
      -- covers the exceptions of whichever branch ran
      .ok regridded_file

/-! ## Validator / level selector (`process_mean_min_max`,
`get_dimension_name`, lines 142–213)

The netCDF data is abstracted to exactly what the validator inspects: the
dimensionality of the `{var}_mean` field, its named dimensions with their
`axis`/`units` attributes and coordinate values, and the results of the
`np.nanmean`/`np.nanmin`/`np.nanmax` reductions — whole-field for ≤3-D
fields, per-vertical-level for 4-D fields. -/

/-- One dimension of the reduced data array: its name, its `attrs.get("axis")`,
its `attrs["units"]` (`none` models the attribute being absent, so that
direct indexing raises `KeyError`), and its coordinate values. -/
structure Dim where
  name : String
  axis : Option String
  units : Option String
  coords : List ℚ
deriving DecidableEq

/-- The reduced (`.mean_min_max.nc`) dataset as seen by the validator. -/
structure ReducedDataset where
  hasVars : Bool
  ndim : Nat
  dims : List Dim
  flatMean : ℚ
  flatMin : ℚ
  flatMax : ℚ
  levelMean : List ℚ
  levelMin : List ℚ
  levelMax : List ℚ

/-- `get_dimension_name` of `plot_z-scores.py`: the first dimension, in
the data array's dimension order, whose `axis` attribute equals the
requested value; `ValueError` when none matches. -/
def get_dimension_name (dims : List Dim) (axis_value : String) : PyResult String :=
  match dims.find? (fun d => d.axis == some axis_value) with
  | some d => .ok d.name
  | none =>
    .raised ("ValueError: No valid dimension name found with attribute :axis = " ++ axis_value)

/-- Look a dimension up by name (`da_gm[dim_name]`). -/
def findDim (dims : List Dim) (dname : String) : Option Dim :=
  dims.find? (fun d => d.name == dname)

/-- Tail of the nearest-neighbour index search: scan the remaining
coordinates, keeping the index/distance of the best match so far and
replacing it only on a strictly smaller distance. -/
def nearestAux (target : ℚ) : List ℚ → Nat → Nat × ℚ → Nat × ℚ
  | [], _, best => best
  | c :: rest, i, best =>
      nearestAux target rest (i + 1) (if |c - target| < best.2 then (i, |c - target|) else best)

/-- Index selected by `ds.sel({dim: target}, method="nearest")`: the
position of the coordinate with minimal absolute distance to `target`
(first such position on ties). -/
def nearestIdx (coords : List ℚ) (target : ℚ) : Nat :=
  match coords with
  | [] => 0
  | c :: rest => (nearestAux target rest 1 (0, |c - target|)).1

/-- The `(mean, min, max)` scalars read off after selecting vertical
level `idx` (`ds_level[f"{v}_mean"]` etc. reduced over the remaining
dimensions). -/
def levelValuesAt (ds : ReducedDataset) (idx : Nat) : PyResult (ℚ × ℚ × ℚ) :=
  .ok (ds.levelMean.getD idx 0, ds.levelMin.getD idx 0, ds.levelMax.getD idx 0)

/-- `process_mean_min_max` of `plot_z-scores.py`: sanity checks (each
fatal via a printed diagnostic followed by `sys.exit()`, exit status 0),
vertical-level selection for 4-D fields, and the three scalar results. -/
def process_mean_min_max (ds : ReducedDataset) (v_key : String)
    (variable_info : VariableInfo) : PyResult (ℚ × ℚ × ℚ) :=
  -- check 1: `ds[f"{v_key}_mean"]` raises `KeyError` when absent
  if ¬ ds.hasVars then .raised ("KeyError: " ++ v_key ++ "_mean")
  -- check 2: dimensionality must match the dictionary
  else if ds.ndim ≠ variable_info.dimensions then
    .exited ("Error: " ++ v_key ++ " has " ++ toString ds.ndim ++
             " dimensions, but should have " ++ toString variable_info.dimensions) 0
  else
    -- check 3: 1 or 12 timesteps, for time-varying fields only
    let tcheck : PyResult Unit :=
      if variable_info.dimensions > 2 then
        match get_dimension_name ds.dims "T" with
        | .raised e => .raised e
        | .exited m c => .exited m c
        | .ok tname =>
          match findDim ds.dims tname with
          | none => .raised ("KeyError: " ++ tname)
          | some td =>
            if td.coords.length = 1 ∨ td.coords.length = 12 then .ok ()
            else .exited ("Error: " ++ v_key ++ " has " ++ toString td.coords.length ++
                          " timesteps, but should have 1 or 12") 0
      else .ok ()
    match tcheck with
    | .raised e => .raised e
    | .exited m c => .exited m c
    | .ok () =>
      if variable_info.dimensions ≤ 3 then
        .ok (ds.flatMean, ds.flatMin, ds.flatMax)
      else if variable_info.dimensions = 4 then
        match get_dimension_name ds.dims "Z" with
        | .raised e => .raised e
        | .exited m c => .exited m c
        | .ok zname =>
          match findDim ds.dims zname with
          | none => .raised ("KeyError: " ++ zname)
          | some zd =>
            match zd.units with
            | none => .raised "KeyError: units"
            | some u =>
              let levelsAt : Nat → PyResult (ℚ × ℚ × ℚ) := fun idx => levelValuesAt ds idx
              if u = "Pa" then levelsAt (nearestIdx zd.coords 50000)
              else if u = "hPa" ∨ u = "mbar" then levelsAt (nearestIdx zd.coords 500)
              else if u = "m" ∨ u = "meters" then levelsAt (nearestIdx zd.coords 1000)
              else if u = "centimeters" then levelsAt (nearestIdx zd.coords 100000)
              else if v_key = "ua" ∨ v_key = "va" ∨ v_key = "wa" then levelsAt 0
              else
                .exited ("Error: " ++ v_key ++ " has unknown vertical units " ++ u ++
                         " in dimension " ++ zname) 0
      else
        -- dimensionality ≥ 5 falls through both branches and the final
        -- `return` reads the unbound local `mean_value`
        .raised "UnboundLocalError: local variable mean_value referenced before assignment"

/-! ## Outlier scorer (`compute_group_z_scores`, lines 216–243)

A table row is a unit string (column 0, object dtype) followed by the
numeric columns: three columns `min, mean, max` per model, then the three
`median` columns.  `df.iloc[:, 1:-3]` strips the unit column and the three
median columns; the loop `for i in range(3)` with `df.iloc[:, i::3]`
extracts the interleaved per-statistic subgroups, computes the row-wise
median, sample standard deviation and z-scores per subgroup, and writes
them back to the same column positions; `np.absolute` is applied to the
assembled frame. -/

/-- One row of the overview `DataFrame`: the unit cell and, in column
order, the numeric cells (three per model, then the three medians). -/
structure TableRow where
  unit : String
  vals : List (Option ℚ)
deriving DecidableEq

/-- `df.iloc[:, 1:-3]` on one row: the unit cell is the separate `unit`
field, so only the three trailing median columns remain to be dropped. -/
def stripRow (r : TableRow) : List (Option ℚ) := r.vals.take (r.vals.length - 3)

/-- Every third element of a list, starting at its head — the row-wise
content of the column slice `iloc[:, i::3]` once the first `i` columns
are dropped. -/
def takeEvery3 {α : Type} : List α → List α
  | [] => []
  | [a] => [a]
  | [a, _] => [a]
  | a :: _ :: _ :: rest => a :: takeEvery3 rest

/-- Row-wise content of the column slice `iloc[:, g::3]`. -/
def sliceEvery3 {α : Type} (row : List α) (g : Nat) : List α := takeEvery3 (row.drop g)

/-- `subgroup.median(axis=1)` for one row: the median of the non-NaN
entries (`none` when all entries are NaN). -/
def rowMedian (sub : List (Option ℚ)) : Option ℚ := medianQ (sub.filterMap id)

/-- `subgroup.std(axis=1)` for one row: the sample standard deviation of
the non-NaN entries (`none`, i.e. NaN, when fewer than two). -/
def rowStd (S : SqrtFn) (sub : List (Option ℚ)) : Option ℚ := sampleStd S (sub.filterMap id)

/-- `std_devs + (std_devs == 0)` for one row: `NaN == 0` is `False`, so a
NaN standard deviation stays NaN; a zero one becomes 1. -/
def zDenom (S : SqrtFn) (sub : List (Option ℚ)) : Option ℚ :=
  (rowStd S sub).map (fun s => s + (if s = 0 then 1 else 0))

/-- `(x - medians) / (std_devs + (std_devs == 0))` for one cell: NaN
(`none`) as soon as the cell, the row median or the denominator is NaN. -/
def rawZ (S : SqrtFn) (sub : List (Option ℚ)) (x : Option ℚ) : Option ℚ :=
  match x, rowMedian sub, zDenom S sub with
  | some xv, some mv, some dv => some ((xv - mv) / dv)
  | _, _, _ => none

/-- The z-scores of one row of one subgroup (`subgroup.apply(...)`). -/
def zRowSub (S : SqrtFn) (sub : List (Option ℚ)) : List (Option ℚ) :=
  sub.map (rawZ S sub)

/-- Reassembly `z_scores.iloc[:, i::3] = subgroup_z_scores` for one row:
column `c` belongs to subgroup `c % 3` at offset `c / 3`. -/
def assembleZRow (S : SqrtFn) (row : List (Option ℚ)) : List (Option ℚ) :=
  (List.range row.length).map (fun c => (zRowSub S (sliceEvery3 row (c % 3))).getD (c / 3) none)

/-- `compute_group_z_scores` of `plot_z-scores.py`. -/
def compute_group_z_scores (S : SqrtFn) (df : List TableRow) : List (List (Option ℚ)) :=
  ((df.map stripRow).map (assembleZRow S)).map (fun r => r.map (Option.map (fun z => |z|)))

/-! ## Table builder (`process_single_table`, lines 425–527)

For a fixed task `(e_key, time_key, table_realm)` the chain
`construct_filename → check_file_exists → regrid_file →
calculate_global_mean_min_max → process_mean_min_max` is abstracted by an
oracle giving, per `(variable, model)`, whether the file exists and the
`(global_mean, global_min, global_max)` scalars it would produce; the
task's experiment and time keys enter only through that oracle. -/

/-- Per-(variable, model) outcome of the file-discovery/regrid/reduce
chain for one task. -/
structure TableOracle where
  present : String → String → Bool
  stats : String → String → ℚ × ℚ × ℚ

/-- The fixed per-variable conversion table (factor, replacement unit
string) of `process_single_table`. -/
def conversion_factors : List (String × (ℚ × String)) := [
  ("pr", (86400, "$mm day^{-1}$")),
  ("evspsbl", (86400, "$mm day^{-1}$")),
  ("wfo", (86400, "$mm day^{-1}$")),
  ("ps", (1/100, "$hPa$")),
  ("psl", (1/100, "$hPa$")),
  ("hus", (1000, "$1$")),
  ("uo", (100, "$cm s^{-1}$")),
  ("vo", (100, "$cm s^{-1}$")),
  ("wo", (86400, "$m day^{-1}$")),
  ("difvtrbo", (10000, "$cm^{-2} s^{-1}$")),
  ("difvmo", (10000, "$cm^{-2} s^{-1}$"))]

/-- `f"${unit}$"` with the percent sign escaped. -/
def formatUnit (u : String) : String :=
  let s := "$" ++ u ++ "$"
  if s = "$%$" then "$\\%$" else s

/-- The fixed exclusion list of `process_single_table` (line 432). -/
def excluded_vars : List String := ["msftmz", "msftbarot", "rsnscs", "rlnscs"]

/-- The `(key, record)` pairs whose variables become table rows, in
dictionary order: realm matches and the key is not excluded. -/
def tableVarsEntries (table_realm : String) : List (String × VariableInfo) :=
  variable_dict.filter (fun p => p.2.realm == table_realm && !(excluded_vars.contains p.1))

/-- `table_vars` of `process_single_table`: the row labels of the table. -/
def tableVars (table_realm : String) : List String :=
  (tableVarsEntries table_realm).map (fun p => p.1)

/-- The `(min, mean, max)` cells stored under one model's columns:
`none` (left missing) when the file is absent, otherwise the oracle's
scalars with the conversion factor applied. -/
def modelCells (O : TableOracle) (v_key m_key : String) : Option (ℚ × ℚ × ℚ) :=
  if O.present v_key m_key then
    let s := O.stats v_key m_key
    match conversion_factors.lookup v_key with
    | some fu => some (fu.1 * s.2.1, fu.1 * s.1, fu.1 * s.2.2)
    | none => some (s.2.1, s.1, s.2.2)
  else none

/-- The unit cell after the model loop: initialised from the dictionary
unit, overwritten with the conversion unit each time a present model has
a conversion entry. -/
def rowUnit (O : TableOracle) (models : List (String × ModelInfo)) (v_key : String)
    (variable_info : VariableInfo) : String :=
  models.foldl (fun u m =>
    if O.present v_key m.1 then
      match conversion_factors.lookup v_key with
      | some fu => fu.2
      | none => u
    else u) (formatUnit variable_info.unit)

/-- One `median` cell (lines 512–523): NaN when every model value for the
statistic is NaN, otherwise `np.round(np.nanmedian(values), 1)`. -/
def medianCell (vals : List (Option ℚ)) : Option ℚ :=
  if vals.all (fun v => v.isNone) then none
  else (medianQ (vals.filterMap id)).map round1

/-- The three table cells `(min, mean, max)` contributed by one model, in
column order (all missing when the model's file is absent). -/
def tripList (c : Option (ℚ × ℚ × ℚ)) : List (Option ℚ) :=
  [Option.map (fun t => t.1) c, Option.map (fun t => t.2.1) c, Option.map (fun t => t.2.2) c]

/-- One row of the overview table for variable `v_key`: the per-model
`min, mean, max` cells in model order followed by the three median cells,
plus the unit cell. -/
def buildRow (O : TableOracle) (models : List (String × ModelInfo)) (v_key : String)
    (variable_info : VariableInfo) : TableRow :=
  let cells := models.map (fun m => modelCells O v_key m.1)
  let minCol := cells.map (Option.map (fun c => c.1))
  let meanCol := cells.map (Option.map (fun c => c.2.1))
  let maxCol := cells.map (Option.map (fun c => c.2.2))
  { unit := rowUnit O models v_key variable_info,
    vals := cells.flatMap tripList
            ++ [medianCell minCol, medianCell meanCol, medianCell maxCol] }

/-- The overview table built by `process_single_table` for one task:
one labelled row per non-excluded variable of the realm. -/
def process_single_table (O : TableOracle) (models : List (String × ModelInfo))
    (table_realm : String) : List (String × TableRow) :=
  (tableVarsEntries table_realm).map (fun p => (p.1, buildRow O models p.1 p.2))

/-! ## Task orchestrator (`main`, lines 560–594) -/

/-- `tasks = list(product(exp_dict.keys(), time_list, table_list))`. -/
def task_list : List (String × String × String) :=
  exp_dict_keys.flatMap (fun e => time_list.flatMap (fun t => table_list.map (fun r => (e, t, r))))

/-- A worker's stored exception, as `ProcessPoolExecutor` records it: the
worker process catches `BaseException`, so both ordinary `Exception`
subclasses and `BaseException`-only exceptions — notably the
`SystemExit` raised by the script's own bare `sys.exit()` fatal paths —
can be stored on a future.  `isException` records whether the class
derives from `Exception`, i.e. whether the orchestrator's
`except Exception` handler catches it when `future.result()` re-raises
it. -/
structure StoredExc where
  isException : Bool
  msg : String
deriving DecidableEq

/-- Lines 590–594, one future: `future.result()` re-raises the stored
exception; `except Exception as exc` catches it and prints
`Task generated an exception: ...` only when its class derives from
`Exception` — a stored `SystemExit` escapes the handler.  Returns the
printed lines and the exception (if any) escaping the `try` statement. -/
def surfaceResult (stored : Option StoredExc) : List String × Option StoredExc :=
  match stored with
  | some e =>
    if e.isException then (["Task generated an exception: " ++ e.msg], none)
    else ([], some e)
  | none => ([], none)

/-- One iteration of the `for future in futures` loop: once an exception
has escaped a `try` statement it aborts the loop, so later futures are
not checked; otherwise the future's result is surfaced. -/
def orchestrateStep (outcome : String × String × String → Option StoredExc)
    (acc : List String × Option StoredExc) (t : String × String × String) :
    List String × Option StoredExc :=
  match acc.2 with
  | some _ => acc
  | none =>
    let s := surfaceResult (outcome t)
    (acc.1 ++ s.1, s.2)

/-- The completion phase of `main` for a given assignment of stored
exceptions to tasks: the poll loop blocks until every submitted future is
done (no cancellation), then each future is checked in submission order.
Returns (tasks run to completion, lines printed, exception propagating
out of `main`). -/
def mainOrchestrate (outcome : String × String × String → Option StoredExc) :
    List (String × String × String) × List String × Option StoredExc :=
  let folded := task_list.foldl (orchestrateStep outcome) ([], none)
  (task_list, folded.1, folded.2)

/-- Uniform negation of one statistic group of a table row: every cell of
the stripped (model-statistic) region whose column index is congruent to
`g` modulo 3 is negated; the unit cell and the median columns are kept. -/
def negGroupRow (g : Nat) (r : TableRow) : TableRow :=
  ⟨r.unit, r.vals.mapIdx (fun c x =>
    if c < r.vals.length - 3 ∧ c % 3 = g then Option.map (fun v => -v) x else x)⟩

/-! ## Supporting lemmas -/

theorem takeEvery3_getD {α : Type} (k : Nat) (l : List α) (d : α) :
    (takeEvery3 l).getD k d = l.getD (3 * k) d := by
  induction l using takeEvery3.induct generalizing k with
  | case1 => simp [takeEvery3]
  | case2 a =>
    cases k with
    | zero => simp [takeEvery3]
    | succ k2 =>
      have h1 : (takeEvery3 [a]).getD (k2 + 1) d = d := by
        simp [takeEvery3, List.getD_eq_default]
      have h2 : ([a] : List α).getD (3 * (k2 + 1)) d = d := by
        apply List.getD_eq_default
        simp
        omega
      rw [h1, h2]
  | case3 a b =>
    cases k with
    | zero => simp [takeEvery3]
    | succ k2 =>
      have h1 : (takeEvery3 [a, b]).getD (k2 + 1) d = d := by
        simp [takeEvery3, List.getD_eq_default]
      have h2 : ([a, b] : List α).getD (3 * (k2 + 1)) d = d := by
        apply List.getD_eq_default
        simp
        omega
      rw [h1, h2]
  | case4 a b c rest ih =>
    cases k with
    | zero => simp [takeEvery3]
    | succ k2 =>
      rw [takeEvery3]
      have h3 : 3 * (k2 + 1) = ((3 * k2 + 1) + 1) + 1 := by omega
      simp only [List.getD_cons_succ, h3, ih]

theorem takeEvery3_length {α : Type} (l : List α) :
    (takeEvery3 l).length = (l.length + 2) / 3 := by
  induction l using takeEvery3.induct with
  | case1 => simp [takeEvery3]
  | case2 a => simp [takeEvery3]
  | case3 a b => simp [takeEvery3]
  | case4 a b c rest ih =>
    rw [takeEvery3]
    simp only [List.length_cons, ih]
    omega

theorem sliceEvery3_getD {α : Type} (row : List α) (g k : Nat) (d : α) :
    (sliceEvery3 row g).getD k d = row.getD (g + 3 * k) d := by
  rw [sliceEvery3, takeEvery3_getD]
  rw [List.getD_eq_getD_get?, List.getD_eq_getD_get?, List.get?_drop]

theorem sliceEvery3_length {α : Type} (row : List α) (g : Nat) :
    (sliceEvery3 row g).length = (row.length - g + 2) / 3 := by
  rw [sliceEvery3, takeEvery3_length, List.length_drop]

-- cell lemma for assembleZRow
theorem assembleZRow_getD (S : SqrtFn) (row : List (Option ℚ)) (c : Nat)
    (hc : c < row.length) :
    (assembleZRow S row).getD c none
      = rawZ S (sliceEvery3 row (c % 3)) (row.getD c none) := by
  have hr : c < (List.range row.length).length := by simpa using hc
  rw [assembleZRow]
  rw [List.getD_eq_getElem _ _ (by simpa using hc)]
  rw [List.getElem_map]
  rw [List.getElem_range]
  -- now: (zRowSub S (sliceEvery3 row (c % 3))).getD (c / 3) none = ...
  have hlen : c / 3 < (sliceEvery3 row (c % 3)).length := by
    rw [sliceEvery3_length]
    have h3 : c % 3 < 3 := Nat.mod_lt _ (by omega)
    have : c % 3 + 3 * (c / 3) = c := Nat.mod_add_div c 3
    omega
  rw [zRowSub]
  rw [List.getD_eq_getElem _ _ (by simpa using hlen)]
  rw [List.getElem_map]
  congr 1
  rw [← List.getD_eq_getElem _ none hlen, sliceEvery3_getD]
  congr 1
  omega


theorem z_scores_cell (S : SqrtFn) (df : List TableRow) (r c : Nat) (row : TableRow)
    (hr : r < df.length) (hrow : df.getD r ⟨"", []⟩ = row)
    (hc : c < (stripRow row).length) :
    ((compute_group_z_scores S df).getD r []).getD c none
      = (rawZ S (sliceEvery3 (stripRow row) (c % 3))
          ((stripRow row).getD c none)).map (fun z => |z|) := by
  have hrow2 : df[r] = row := by rw [← hrow, List.getD_eq_getElem _ _ hr]
  have houter : (compute_group_z_scores S df).getD r []
      = (assembleZRow S (stripRow row)).map (Option.map (fun z => |z|)) := by
    rw [compute_group_z_scores, List.getD_eq_getElem _ _ (by simpa using hr)]
    rw [List.getElem_map, List.getElem_map, List.getElem_map, hrow2]
  rw [houter]
  have hlen : c < (assembleZRow S (stripRow row)).length := by
    rw [assembleZRow]; simpa using hc
  rw [List.getD_eq_getElem _ _ (by simpa using hlen), List.getElem_map]
  rw [← List.getD_eq_getElem _ none hlen]
  rw [assembleZRow_getD S _ c hc]

theorem medianQ_singleton (x : ℚ) : medianQ [x] = some x := by
  simp [medianQ, List.insertionSort]

theorem medianQ_isSome (xs : List ℚ) (h : xs ≠ []) : ∃ m, medianQ xs = some m := by
  rw [medianQ]
  have : xs.length ≠ 0 := by simpa using h
  simp only [this, if_false]
  split <;> exact ⟨_, rfl⟩

theorem medianQ_const (xs : List ℚ) (v : ℚ) (hne : xs ≠ [])
    (hv : ∀ x ∈ xs, x = v) : medianQ xs = some v := by
  have hlen : xs.length ≠ 0 := by simpa using hne
  have hmem : ∀ y ∈ List.insertionSort (· ≤ ·) xs, y = v := by
    intro y hy
    exact hv y ((List.mem_insertionSort _).1 hy)
  have hslen : (List.insertionSort (· ≤ ·) xs).length = xs.length :=
    List.length_insertionSort _ _
  have hgetD : ∀ i, i < xs.length → (List.insertionSort (· ≤ ·) xs).getD i 0 = v := by
    intro i hi
    have hi2 : i < (List.insertionSort (· ≤ ·) xs).length := by omega
    rw [List.getD_eq_getElem _ _ hi2]
    exact hmem _ (List.getElem_mem hi2)
  rw [medianQ]
  simp only [hlen, if_false]
  have h2 : xs.length / 2 < xs.length := Nat.div_lt_self (by omega) (by omega)
  split
  · rw [hgetD _ h2]
  · rw [hgetD _ h2, hgetD _ (by omega)]
    norm_num

theorem sort_neg (xs : List ℚ) :
    List.insertionSort (· ≤ ·) (xs.map (fun x => -x))
      = ((List.insertionSort (· ≤ ·) xs).map (fun x => -x)).reverse := by
  refine List.eq_of_perm_of_sorted (r := (fun a b : ℚ => a ≤ b)) ?_ ?_ ?_
  · exact (List.perm_insertionSort _ _).trans
      ((((List.perm_insertionSort (· ≤ ·) xs).map (fun x => -x)).symm).trans
        (List.reverse_perm _).symm)
  · exact List.sorted_insertionSort _ _
  · rw [List.Sorted, List.pairwise_reverse, List.pairwise_map]
    have := List.sorted_insertionSort (· ≤ ·) xs
    rw [List.Sorted] at this
    exact this.imp (fun h => by simpa using neg_le_neg h)

theorem medianQ_neg (xs : List ℚ) :
    medianQ (xs.map (fun x => -x)) = (medianQ xs).map (fun m => -m) := by
  rcases eq_or_ne xs [] with rfl | hne
  · simp [medianQ]
  have hlen : xs.length ≠ 0 := by simpa using hne
  have hmaplen : (xs.map (fun x => -x)).length = xs.length := by simp
  set s := List.insertionSort (· ≤ ·) xs with hs
  have hslen : s.length = xs.length := List.length_insertionSort _ _
  have hrev : ∀ i, i < xs.length →
      (List.insertionSort (· ≤ ·) (xs.map (fun x => -x))).getD i 0
        = -(s.getD (xs.length - 1 - i) 0) := by
    intro i hi
    rw [sort_neg, ← hs]
    have h1 : i < ((s.map (fun x => -x)).reverse).length := by simpa [hslen] using hi
    rw [List.getD_eq_getElem _ _ h1, List.getElem_reverse, List.getElem_map]
    have h2 : s.length - 1 - i < s.length := by omega
    have h3 : (List.map (fun x => -x) s).length - 1 - i = s.length - 1 - i := by
      simp
    simp only [h3]
    rw [← List.getD_eq_getElem _ (0 : ℚ) h2, hslen]
  rw [medianQ, medianQ]
  simp only [hmaplen, hlen, if_false]
  rcases Nat.even_or_odd xs.length with he | ho
  · have hmod : ¬ xs.length % 2 = 1 := by
      rcases he with ⟨k, hk⟩; omega
    simp only [hmod, if_false, Option.map_some]
    have hk2 : xs.length / 2 < xs.length := Nat.div_lt_self (by omega) (by omega)
    have hk1 : xs.length / 2 - 1 < xs.length := by omega
    rw [hrev _ hk1, hrev _ hk2]
    have e1 : xs.length - 1 - (xs.length / 2 - 1) = xs.length / 2 := by
      rcases he with ⟨k, hk⟩; omega
    have e2 : xs.length - 1 - xs.length / 2 = xs.length / 2 - 1 := by
      rcases he with ⟨k, hk⟩; omega
    rw [e1, e2]
    congr 1
    ring
  · have hmod : xs.length % 2 = 1 := by
      rcases ho with ⟨k, hk⟩; omega
    simp only [hmod, if_true]
    have hk2 : xs.length / 2 < xs.length := Nat.div_lt_self (by omega) (by omega)
    rw [hrev _ hk2]
    have e1 : xs.length - 1 - xs.length / 2 = xs.length / 2 := by omega
    rw [e1]
    simp

theorem sampleVariance_short (xs : List ℚ) (h : xs.length ≤ 1) :
    sampleVariance xs = none := by
  rw [sampleVariance]
  simp [h]

theorem sampleVariance_nonneg (xs : List ℚ) (v : ℚ)
    (h : sampleVariance xs = some v) : 0 ≤ v := by
  rw [sampleVariance] at h
  by_cases hl : xs.length ≤ 1
  · simp [hl] at h
  · simp only [hl, if_false, Option.some.injEq] at h
    subst h
    apply div_nonneg
    · apply List.sum_nonneg
      intro x hx
      rcases List.mem_map.1 hx with ⟨y, _, rfl⟩
      positivity
    · have : (2 : ℚ) ≤ (xs.length : ℚ) := by
        have : 2 ≤ xs.length := by omega
        exact_mod_cast this
      linarith

theorem sampleVariance_const (xs : List ℚ) (v : ℚ) (hl : 2 ≤ xs.length)
    (hv : ∀ x ∈ xs, x = v) : sampleVariance xs = some 0 := by
  have hrep : xs = List.replicate xs.length v := by
    apply List.eq_replicate_of_mem hv
  rw [sampleVariance]
  have hne : ¬ xs.length ≤ 1 := by omega
  simp only [hne, if_false, Option.some.injEq]
  have hsum : xs.sum = (xs.length : ℚ) * v := by
    conv_lhs => rw [hrep]
    simp [List.sum_replicate, nsmul_eq_mul]
  have hnz : (xs.length : ℚ) ≠ 0 := by
    have : 0 < xs.length := by omega
    positivity
  have hmean : xs.sum / (xs.length : ℚ) = v := by
    rw [hsum]; field_simp
  rw [hmean]
  have hzero : xs.map (fun x => (x - v) ^ 2) = List.replicate xs.length 0 := by
    conv_lhs => rw [hrep]
    simp [List.map_replicate]
  rw [hzero]
  simp [List.sum_replicate]

theorem sum_map_neg_q (xs : List ℚ) : (xs.map (fun x => -x)).sum = -xs.sum := by
  induction xs with
  | nil => simp
  | cons a t ih => simp only [List.map_cons, List.sum_cons, ih]; ring

theorem sampleVariance_neg (xs : List ℚ) :
    sampleVariance (xs.map (fun x => -x)) = sampleVariance xs := by
  rw [sampleVariance, sampleVariance]
  simp only [List.length_map]
  by_cases hl : xs.length ≤ 1
  · simp [hl]
  · simp only [hl, if_false, Option.some.injEq]
    rw [sum_map_neg_q]
    congr 1
    rw [List.map_map]
    have : ((fun x => (x - -xs.sum / (xs.length : ℚ)) ^ 2) ∘ (fun x => -x))
        = (fun x => (x - xs.sum / (xs.length : ℚ)) ^ 2) := by
      funext x
      simp only [Function.comp]
      ring
    rw [this]

theorem filterMap_id_map_neg (sub : List (Option ℚ)) :
    ((sub.map (Option.map (fun x => -x))).filterMap id)
      = (sub.filterMap id).map (fun x => -x) := by
  induction sub with
  | nil => simp
  | cons a t ih =>
    cases a with
    | none => simpa using ih
    | some x => simpa using ih


theorem nearestAux_spec (target : ℚ) (l : List ℚ) :
    ∀ (i : Nat) (best : Nat × ℚ),
      (nearestAux target l i best = best ∨
        ∃ k, k < l.length ∧
          nearestAux target l i best = (i + k, |l.getD k 0 - target|)) ∧
      (nearestAux target l i best).2 ≤ best.2 ∧
      (∀ k, k < l.length → (nearestAux target l i best).2 ≤ |l.getD k 0 - target|) := by
  induction l with
  | nil => intro i best; simp [nearestAux]
  | cons c rest ih =>
    intro i best
    rw [nearestAux]
    by_cases h : |c - target| < best.2
    · simp only [h, if_true]
      rcases ih (i + 1) (i, |c - target|) with ⟨hcase, hle, hall⟩
      refine ⟨?_, ?_, ?_⟩
      · rcases hcase with heq | ⟨k, hk, heq⟩
        · right
          exact ⟨0, by simp, by simpa using heq⟩
        · right
          exact ⟨k + 1, by simpa using hk, by simpa [Nat.add_assoc, Nat.add_comm 1 k] using heq⟩
      · calc (nearestAux target rest (i + 1) (i, |c - target|)).2
            ≤ |c - target| := hle
          _ ≤ best.2 := le_of_lt h
      · intro k hk
        cases k with
        | zero => simpa using hle
        | succ k2 =>
          have := hall k2 (by simpa using hk)
          simpa using this
    · simp only [h, if_false]
      rcases ih (i + 1) best with ⟨hcase, hle, hall⟩
      refine ⟨?_, hle, ?_⟩
      · rcases hcase with heq | ⟨k, hk, heq⟩
        · left; exact heq
        · right
          exact ⟨k + 1, by simpa using hk, by simpa [Nat.add_assoc, Nat.add_comm 1 k] using heq⟩
      · intro k hk
        cases k with
        | zero =>
          simp only [List.getD_cons_zero]
          exact le_trans hle (not_lt.1 h)
        | succ k2 =>
          have := hall k2 (by simpa using hk)
          simpa using this

theorem nearestIdx_exact (coords : List ℚ) (target : ℚ) (hmem : target ∈ coords) :
    coords.getD (nearestIdx coords target) 0 = target := by
  cases coords with
  | nil => cases hmem
  | cons c rest =>
    rw [nearestIdx]
    rcases (nearestAux_spec target rest 1 (0, |c - target|)) with ⟨hcase, hle, hall⟩
    set r := nearestAux target rest 1 (0, |c - target|) with hr
    have hsnd : r.2 = |(c :: rest).getD r.1 0 - target| := by
      rcases hcase with heq | ⟨k, hk, heq⟩
      · rw [heq]; simp
      · rw [heq]
        have h1k : 1 + k = k + 1 := by omega
        simp only [h1k, List.getD_cons_succ]
    have hzero : r.2 ≤ 0 := by
      rcases List.mem_cons.1 hmem with hq | hmem2
      · calc r.2 ≤ |c - target| := by simpa using hle
          _ = 0 := by rw [hq]; simp
      · rcases List.mem_iff_getElem.1 hmem2 with ⟨k, hk, hkeq⟩
        have := hall k hk
        rw [List.getD_eq_getElem _ _ hk, hkeq] at this
        simpa using this
    have habs : |(c :: rest).getD r.1 0 - target| = 0 := le_antisymm (hsnd ▸ hzero) (abs_nonneg _)
    have : (c :: rest).getD r.1 0 - target = 0 := abs_eq_zero.1 habs
    linarith

theorem ext_getD_option (l1 l2 : List (Option ℚ)) (hlen : l1.length = l2.length)
    (h : ∀ i, l1.getD i none = l2.getD i none) : l1 = l2 := by
  apply List.ext_getElem hlen
  intro i h1 h2
  have := h i
  rwa [List.getD_eq_getElem _ _ h1, List.getD_eq_getElem _ _ h2] at this


theorem flatMap_trip_length (cells : List (Option (ℚ × ℚ × ℚ))) :
    (cells.flatMap tripList).length = 3 * cells.length := by
  induction cells with
  | nil => simp
  | cons a t ih => simp only [List.flatMap_cons, List.length_append, ih, tripList]; simp; omega

theorem flatMap_trip_getD (cells : List (Option (ℚ × ℚ × ℚ))) (i s : Nat)
    (hs : s < 3) :
    (cells.flatMap tripList).getD (3 * i + s) none
      = (tripList (cells.getD i none)).getD s none := by
  induction cells generalizing i with
  | nil =>
    simp only [List.flatMap_nil, List.getD_nil, List.getD]
    interval_cases s <;> simp [tripList]
  | cons a t ih =>
    cases i with
    | zero =>
      simp only [List.flatMap_cons, Nat.mul_zero, Nat.zero_add, List.getD_cons_zero]
      rw [List.getD_append]
      simp [tripList]
      omega
    | succ i2 =>
      simp only [List.flatMap_cons, List.getD_cons_succ]
      rw [List.getD_append_right]
      · have harith : 3 * (i2 + 1) + s - (tripList a).length = 3 * i2 + s := by
          simp [tripList]; omega
        rw [harith, ih]
      · simp [tripList]; omega

theorem slice_flatMap_trip (cells : List (Option (ℚ × ℚ × ℚ))) (s : Nat) (hs : s < 3) :
    sliceEvery3 (cells.flatMap tripList) s
      = cells.map (fun c => (tripList c).getD s none) := by
  apply ext_getD_option
  · rw [sliceEvery3_length, flatMap_trip_length, List.length_map]
    omega
  · intro k
    rw [sliceEvery3_getD]
    by_cases hk : k < cells.length
    · have harith : s + 3 * k = 3 * k + s := by omega
      rw [harith, flatMap_trip_getD cells k s hs]
      have hkm : k < (cells.map (fun c => (tripList c).getD s none)).length := by
        simpa using hk
      rw [List.getD_eq_getElem _ _ hkm, List.getElem_map,
        ← List.getD_eq_getElem _ (none : Option (ℚ × ℚ × ℚ)) hk]
    · have h1 : (cells.flatMap tripList).getD (s + 3 * k) none = none := by
        apply List.getD_eq_default
        rw [flatMap_trip_length]
        omega
      have h2 : (cells.map (fun c => (tripList c).getD s none)).getD k none = none := by
        apply List.getD_eq_default
        simpa using not_lt.1 hk
      rw [h1, h2]

theorem range_map_getD (l : List (Option ℚ)) :
    (List.range l.length).map (fun i => l.getD i none) = l := by
  apply ext_getD_option
  · simp
  · intro i
    by_cases hi : i < l.length
    · rw [List.getD_eq_getElem _ _ (by simpa using hi), List.getElem_map, List.getElem_range]
    · rw [List.getD_eq_default _ _ (by simpa using not_lt.1 hi),
        List.getD_eq_default _ _ (not_lt.1 hi)]

theorem orchestrate_stuck (outcome : String × String × String → Option StoredExc) :
    ∀ (l : List (String × String × String)) (p : List String × Option StoredExc),
      p.2.isSome = true → l.foldl (orchestrateStep outcome) p = p := by
  intro l
  induction l with
  | nil => intro p _; simp
  | cons a t ih =>
    intro p hp
    rw [List.foldl_cons]
    have hstep : orchestrateStep outcome p a = p := by
      cases hq : p.2 with
      | some e => simp [orchestrateStep, hq]
      | none =>
        rw [hq] at hp
        simp at hp
    rw [hstep]
    exact ih p hp

theorem orchestrate_foldl_good (outcome : String × String × String → Option StoredExc) :
    ∀ (l : List (String × String × String)) (acc : List String),
      (∀ t ∈ l, ∀ e, outcome t = some e → e.isException = true) →
      l.foldl (orchestrateStep outcome) (acc, none)
      = (acc ++ l.filterMap (fun t =>
          (outcome t).map (fun e => "Task generated an exception: " ++ e.msg)), none) := by
  intro l
  induction l with
  | nil => intro acc _; simp
  | cons a t ih =>
    intro acc hgood
    rw [List.foldl_cons]
    have hstep : orchestrateStep outcome (acc, none) a
        = (acc ++ (surfaceResult (outcome a)).1, (surfaceResult (outcome a)).2) := rfl
    rw [hstep]
    have hgood_t : ∀ t2 ∈ t, ∀ e, outcome t2 = some e → e.isException = true :=
      fun t2 ht2 => hgood t2 (List.mem_cons_of_mem a ht2)
    cases h : outcome a with
    | none =>
      have hred : (acc ++ (surfaceResult none).1, (surfaceResult none).2)
          = ((acc : List String), (none : Option StoredExc)) := by
        simp [surfaceResult]
      rw [hred, ih acc hgood_t]
      simp [List.filterMap_cons, h]
    | some e =>
      have he : e.isException = true := hgood a (List.mem_cons_self a t) e h
      have hred : (acc ++ (surfaceResult (some e)).1, (surfaceResult (some e)).2)
          = (acc ++ ["Task generated an exception: " ++ e.msg],
             (none : Option StoredExc)) := by
        simp [surfaceResult, he]
      rw [hred, ih (acc ++ ["Task generated an exception: " ++ e.msg]) hgood_t]
      simp [List.filterMap_cons, h]

theorem orchestrate_foldl_abort (outcome : String × String × String → Option StoredExc)
    (l1 : List (String × String × String)) (t : String × String × String)
    (l2 : List (String × String × String)) (acc : List String) (e : StoredExc)
    (hgood : ∀ t2 ∈ l1, ∀ e2, outcome t2 = some e2 → e2.isException = true)
    (ht : outcome t = some e) (he : e.isException = false) :
    (l1 ++ t :: l2).foldl (orchestrateStep outcome) (acc, none)
      = (acc ++ l1.filterMap (fun t2 =>
          (outcome t2).map (fun e2 => "Task generated an exception: " ++ e2.msg)),
         some e) := by
  rw [List.foldl_append, orchestrate_foldl_good outcome l1 acc hgood, List.foldl_cons]
  have hstep : orchestrateStep outcome
      (acc ++ l1.filterMap (fun t2 =>
        (outcome t2).map (fun e2 => "Task generated an exception: " ++ e2.msg)), none) t
      = (acc ++ l1.filterMap (fun t2 =>
          (outcome t2).map (fun e2 => "Task generated an exception: " ++ e2.msg)),
         some e) := by
    simp [orchestrateStep, surfaceResult, ht, he]
  rw [hstep]
  exact orchestrate_stuck outcome l2 _ (by simp)

/-! ## Claim theorems -/

/-- C8: `construct_filename` is a pure function of its inputs; for mode
`"mean"`, the dimensionality-2 variable `sftlf` with model `CESM1.2-CAM5`
(family `CESM`), experiment `deepmip-eocene-p1-PI` and version `v1.0`
yields the climatology path without a `.mean` segment, while the
dimensionality-3 variable `tas` with the same tuple yields the path with
the `.mean` segment. -/
theorem C8_construct_filename_paths :
    ((model_dict.lookup "CESM1.2-CAM5").bind (fun mi =>
        (variable_dict.lookup "sftlf").map (fun vi =>
          construct_filename "deepmip-eocene-p1-PI" "sftlf" "CESM1.2-CAM5" mi vi "mean")))
      = some (.ok ("/data/deepmip-eocene-p1/CESM/CESM1.2-CAM5/deepmip-eocene-p1-PI/" ++
          "v1.0/climatology/sftlf_CESM1.2-CAM5_deepmip-eocene-p1-PI_v1.0.nc"))
    ∧ ((model_dict.lookup "CESM1.2-CAM5").bind (fun mi =>
        (variable_dict.lookup "tas").map (fun vi =>
          construct_filename "deepmip-eocene-p1-PI" "tas" "CESM1.2-CAM5" mi vi "mean")))
      = some (.ok ("/data/deepmip-eocene-p1/CESM/CESM1.2-CAM5/deepmip-eocene-p1-PI/" ++
          "v1.0/climatology/tas_CESM1.2-CAM5_deepmip-eocene-p1-PI_v1.0.mean.nc")) := by
  constructor
  · rfl
  · rfl

/-- C5 (code bug): with the shipped variable dictionary the exclusion list
`["msftmz", "msftbarot", "rsnscs", "rlnscs"]` is disjoint from the
dictionary keys, so the streamfunction variables — whose shipped keys are
`sftbarot` and `sftmyz` — do appear as rows of the ocean table, contrary
to the evident intent of the exclusion list. -/
theorem C5_streamfunctions_are_rows :
    "sftbarot" ∈ tableVars "ocean" ∧ "sftmyz" ∈ tableVars "ocean"
    ∧ variable_dict.lookup "msftmz" = none
    ∧ variable_dict.lookup "msftbarot" = none
    ∧ variable_dict.lookup "rsnscs" = none
    ∧ variable_dict.lookup "rlnscs" = none := by
  refine ⟨by decide, by decide, by decide, by decide, by decide, by decide⟩

/-- C3 (amended): the poll loop waits for every submitted future, so
every already-dispatched task runs to completion regardless of other
tasks' failures; then each future is checked in submission order.  A
stored exception whose class derives from `Exception` is surfaced by
printing `Task generated an exception: ...` — the `except Exception`
handler swallows it, so it is not re-raised out of the orchestrator.  A
stored `BaseException`-only exception such as the `SystemExit` from a
worker's bare `sys.exit()` escapes the handler: the first such exception
propagates out of the orchestrator and aborts the remaining result
checks. -/
theorem C3_exceptions_printed_not_reraised
    (outcome : String × String × String → Option StoredExc) :
    (mainOrchestrate outcome).1 = task_list
    ∧ ((∀ t ∈ task_list, ∀ e, outcome t = some e → e.isException = true) →
        (mainOrchestrate outcome).2.2 = none
        ∧ (mainOrchestrate outcome).2.1
            = task_list.filterMap (fun t =>
                (outcome t).map (fun e => "Task generated an exception: " ++ e.msg)))
    ∧ (∀ (l1 l2 : List (String × String × String)) (t : String × String × String)
          (e : StoredExc),
        task_list = l1 ++ t :: l2 →
        (∀ t2 ∈ l1, ∀ e2, outcome t2 = some e2 → e2.isException = true) →
        outcome t = some e → e.isException = false →
        (mainOrchestrate outcome).2.2 = some e
        ∧ (mainOrchestrate outcome).2.1
            = l1.filterMap (fun t2 =>
                (outcome t2).map (fun e2 => "Task generated an exception: " ++ e2.msg))) := by
  refine ⟨rfl, ?_, ?_⟩
  · intro hgood
    rw [mainOrchestrate, orchestrate_foldl_good outcome task_list [] hgood]
    exact ⟨rfl, by simp⟩
  · intro l1 l2 t e hsplit hgood ht he
    rw [mainOrchestrate, hsplit, orchestrate_foldl_abort outcome l1 t l2 [] e hgood ht he]
    exact ⟨rfl, by simp⟩

/-- C3 (counterexample): in a run whose first task stores an ordinary
`Exception`, the orchestrator prints the diagnostic and re-raises
nothing — no exception propagates out of `main` — refuting the claim
that every stored exception is surfaced by re-raising it out of the
orchestrator. -/
theorem C3_counterexample :
    (mainOrchestrate (fun t =>
        if t = ("deepmip-eocene-p1-PI", "mean", "atmos")
        then some ⟨true, "boom"⟩ else none)).2.2
      = none
    ∧ (mainOrchestrate (fun t =>
        if t = ("deepmip-eocene-p1-PI", "mean", "atmos")
        then some ⟨true, "boom"⟩ else none)).2.1
      = ["Task generated an exception: boom"] := by
  constructor
  · rfl
  · rfl

/-- C3 (witness): the amended theorem applied to a run with no stored
exceptions (nothing printed, nothing re-raised) and to a run whose first
task stores a `SystemExit` (it propagates out of the orchestrator). -/
theorem C3_witness :
    ((mainOrchestrate (fun _ => (none : Option StoredExc))).2.2 = none
      ∧ (mainOrchestrate (fun _ => (none : Option StoredExc))).2.1 = [])
    ∧ (mainOrchestrate (fun t =>
        if t = ("deepmip-eocene-p1-PI", "mean", "atmos")
        then some ⟨false, "SystemExit"⟩ else none)).2.2
      = some ⟨false, "SystemExit"⟩ := by
  constructor
  · have h := (C3_exceptions_printed_not_reraised
        (fun _ => (none : Option StoredExc))).2.1
      (by intro t _ e he; exact absurd he (by simp))
    exact ⟨h.1, by rw [h.2]; simp⟩
  · have h := (C3_exceptions_printed_not_reraised
        (fun t => if t = ("deepmip-eocene-p1-PI", "mean", "atmos")
          then some ⟨false, "SystemExit"⟩ else none)).2.2
      [] task_list.tail ("deepmip-eocene-p1-PI", "mean", "atmos") ⟨false, "SystemExit"⟩
      (by rfl) (by intro t2 ht2; exact absurd ht2 (by simp))
      (by rfl) rfl
    exact h.1

/-- C4 (amended): every detected data-invariant violation (dimensionality
mismatch, timestep count not in {1, 12}, unrecognized vertical-axis
units) and every failure of the external regridding invocation terminates
the process after printing a diagnostic line — but via `sys.exit()` with
no argument, i.e. with exit status 0, not a non-zero status. -/
theorem C4_fatal_paths_exit_status_zero :
    (∀ (env : RegridEnv) (f tk g : String) (e : String),
      env.outputExists = false → env.cdoError = some e →
      (regrid_file env f tk g).exitStatus = some 0)
    ∧ (∀ (ds : ReducedDataset) (v : String) (vi : VariableInfo),
      ds.hasVars = true → ds.ndim ≠ vi.dimensions →
      (process_mean_min_max ds v vi).exitStatus = some 0)
    ∧ (∀ (ds : ReducedDataset) (v : String) (vi : VariableInfo) (tn : String) (td : Dim),
      ds.hasVars = true → ds.ndim = vi.dimensions → 2 < vi.dimensions →
      get_dimension_name ds.dims "T" = .ok tn → findDim ds.dims tn = some td →
      td.coords.length ≠ 1 → td.coords.length ≠ 12 →
      (process_mean_min_max ds v vi).exitStatus = some 0)
    ∧ (∀ (ds : ReducedDataset) (v : String) (vi : VariableInfo) (tn : String) (td : Dim)
        (zn : String) (zd : Dim) (u : String),
      ds.hasVars = true → ds.ndim = 4 → vi.dimensions = 4 →
      get_dimension_name ds.dims "T" = .ok tn → findDim ds.dims tn = some td →
      (td.coords.length = 1 ∨ td.coords.length = 12) →
      get_dimension_name ds.dims "Z" = .ok zn → findDim ds.dims zn = some zd →
      zd.units = some u →
      u ≠ "Pa" → u ≠ "hPa" → u ≠ "mbar" → u ≠ "m" → u ≠ "meters" → u ≠ "centimeters" →
      v ≠ "ua" → v ≠ "va" → v ≠ "wa" →
      (process_mean_min_max ds v vi).exitStatus = some 0) := by
  refine ⟨?_, ?_, ?_, ?_⟩
  · intro env f tk g e h1 h2
    rw [regrid_file]
    simp [h1, h2, PyResult.exitStatus]
  · intro ds v vi h1 h2
    rw [process_mean_min_max]
    simp [h1, h2, PyResult.exitStatus]
  · intro ds v vi tn td h1 h2 h3 h4 h5 h6 h7
    rw [process_mean_min_max]
    have h3n : vi.dimensions > 2 := h3
    simp [h1, h2, h3n, h4, h5, h6, h7, PyResult.exitStatus]
  · intro ds v vi tn td zn zd u h1 h2 h3 h4 h5 h6 h7 h8 h9 hu1 hu2 hu3 hu4 hu5 hu6 hv1 hv2 hv3
    rw [process_mean_min_max]
    have hgt : vi.dimensions > 2 := by omega
    have hne : ¬ vi.dimensions ≤ 3 := by omega
    have hnd : ds.ndim = vi.dimensions := by omega
    rcases h6 with h6a | h6a <;>
      simp [h1, hnd, h3, hgt, hne, h4, h5, h6a, h7, h8, h9, hu1, hu2, hu3, hu4, hu5, hu6,
        hv1, hv2, hv3, PyResult.exitStatus]

/-- C4 (counterexample): a concrete dimensionality mismatch — `tas`
declared 3-D but read back 2-D — and a concrete regridding failure both
terminate with exit status 0, refuting the claimed non-zero status. -/
theorem C4_counterexample :
    (process_mean_min_max ⟨true, 2, [], 0, 0, 0, [], [], []⟩ "tas"
        ⟨"Near-surface air temperature", some "temperature", "K", 3, "atmos"⟩).exitStatus
      = some 0
    ∧ (regrid_file ⟨false, some "cdo failed"⟩ "/data/x/tas_f.nc" "mean" "r180x90").exitStatus
      = some 0 := by
  constructor
  · rfl
  · rfl

/-- C4 (witness): the amended theorem applied at the concrete mismatch
and failure inputs. -/
theorem C4_witness :
    (process_mean_min_max ⟨true, 2, [], 0, 0, 0, [], [], []⟩ "ts"
        ⟨"Surface skin temperature", none, "K", 3, "atmos"⟩).exitStatus = some 0
    ∧ (regrid_file ⟨false, some "boom"⟩ "/data/y/ts_f.nc" "mean" "r180x90").exitStatus
      = some 0 := by
  constructor
  · exact C4_fatal_paths_exit_status_zero.2.1
      ⟨true, 2, [], 0, 0, 0, [], [], []⟩ "ts"
      ⟨"Surface skin temperature", none, "K", 3, "atmos"⟩ rfl (by decide)
  · exact C4_fatal_paths_exit_status_zero.1 ⟨false, some "boom"⟩
      "/data/y/ts_f.nc" "mean" "r180x90" "boom" rfl rfl

theorem nearestIdx_lt (coords : List ℚ) (target : ℚ) (h : coords ≠ []) :
    nearestIdx coords target < coords.length := by
  cases coords with
  | nil => exact absurd rfl h
  | cons c rest =>
    rw [nearestIdx]
    rcases (nearestAux_spec target rest 1 (0, |c - target|)).1 with heq | ⟨k, hk, heq⟩
    · rw [heq]
      simp
    · rw [heq]
      simp only [List.length_cons]
      omega

theorem find?_first_axis (dims : List Dim) (v : String) (j : Nat)
    (hj : j < dims.length)
    (hmatch : (dims.getD j ⟨"", none, none, []⟩).axis = some v)
    (hbefore : ∀ i, i < j → (dims.getD i ⟨"", none, none, []⟩).axis ≠ some v) :
    dims.find? (fun d => d.axis == some v) = some (dims.getD j ⟨"", none, none, []⟩) := by
  induction dims generalizing j with
  | nil => simp at hj
  | cons d rest ih =>
    cases j with
    | zero =>
      simp only [List.getD_cons_zero] at hmatch
      rw [List.find?_cons_of_pos]
      · simp
      · simp [hmatch]
    | succ j2 =>
      have hd : d.axis ≠ some v := by
        have := hbefore 0 (Nat.succ_pos _)
        simpa using this
      rw [List.find?_cons_of_neg]
      · simp only [List.getD_cons_succ] at hmatch ⊢
        exact ih j2 (by simpa using hj) hmatch
          (fun i hi => by simpa using hbefore (i + 1) (by omega))
      · simp [hd]

/-- C10: `get_dimension_name` returns the name of the first dimension, in
dimension order, whose `axis` attribute equals the requested value, and
raises `ValueError` when none matches; consequently a reduced file whose
time-varying field lacks a `T`-axis dimension (or whose 4-D field lacks a
`Z`-axis dimension) aborts the task with an uncaught exception instead of
the printed-diagnostic-then-`sys.exit` path of the other checks. -/
theorem C10_get_dimension_name_first_match :
    (∀ (dims : List Dim) (v : String) (j : Nat),
      j < dims.length →
      (dims.getD j ⟨"", none, none, []⟩).axis = some v →
      (∀ i, i < j → (dims.getD i ⟨"", none, none, []⟩).axis ≠ some v) →
      get_dimension_name dims v = .ok ((dims.getD j ⟨"", none, none, []⟩).name))
    ∧ (∀ (dims : List Dim) (v : String),
      (∀ d ∈ dims, d.axis ≠ some v) →
      get_dimension_name dims v
        = .raised ("ValueError: No valid dimension name found with attribute :axis = " ++ v))
    ∧ (∀ (ds : ReducedDataset) (v : String) (vi : VariableInfo),
      ds.hasVars = true → ds.ndim = vi.dimensions → 2 < vi.dimensions →
      (∀ d ∈ ds.dims, d.axis ≠ some "T") →
      process_mean_min_max ds v vi
        = .raised "ValueError: No valid dimension name found with attribute :axis = T")
    ∧ (∀ (ds : ReducedDataset) (v : String) (vi : VariableInfo) (tn : String) (td : Dim),
      ds.hasVars = true → ds.ndim = 4 → vi.dimensions = 4 →
      get_dimension_name ds.dims "T" = .ok tn → findDim ds.dims tn = some td →
      (td.coords.length = 1 ∨ td.coords.length = 12) →
      (∀ d ∈ ds.dims, d.axis ≠ some "Z") →
      process_mean_min_max ds v vi
        = .raised "ValueError: No valid dimension name found with attribute :axis = Z") := by
  have hnone : ∀ (dims : List Dim) (v : String),
      (∀ d ∈ dims, d.axis ≠ some v) →
      get_dimension_name dims v
        = .raised ("ValueError: No valid dimension name found with attribute :axis = " ++ v) := by
    intro dims v hall
    rw [get_dimension_name]
    have : dims.find? (fun d => d.axis == some v) = none := by
      rw [List.find?_eq_none]
      intro d hd
      simp [hall d hd]
    rw [this]
  refine ⟨?_, hnone, ?_, ?_⟩
  · intro dims v j hj hmatch hbefore
    rw [get_dimension_name, find?_first_axis dims v j hj hmatch hbefore]
  · intro ds v vi h1 h2 h3 hall
    rw [process_mean_min_max]
    have hT := hnone ds.dims "T" hall
    simp [h1, h2, h3, hT]
  · intro ds v vi tn td h1 h2 h3 h4 h5 h6 hall
    rw [process_mean_min_max]
    have hZ := hnone ds.dims "Z" hall
    have hgt : vi.dimensions > 2 := by omega
    have hne : ¬ vi.dimensions ≤ 3 := by omega
    have hnd : ds.ndim = vi.dimensions := by omega
    rcases h6 with h6a | h6a <;>
      simp [h1, hnd, h3, hgt, hne, h4, h5, h6a, hZ]

/-- C10 (witness): the first-match, no-match and missing-axis branches at
concrete inputs. -/
theorem C10_witness :
    get_dimension_name
        [⟨"lon", some "X", none, []⟩, ⟨"time", some "T", none, [1]⟩,
         ⟨"t2", some "T", none, [2]⟩] "T"
      = .ok "time"
    ∧ process_mean_min_max
        ⟨true, 3, [⟨"lon", some "X", none, []⟩, ⟨"lat", some "Y", none, []⟩], 5, 1, 9, [], [], []⟩
        "tas" ⟨"Near-surface air temperature", some "temperature", "K", 3, "atmos"⟩
      = .raised "ValueError: No valid dimension name found with attribute :axis = T" := by
  constructor
  · exact C10_get_dimension_name_first_match.1
      [⟨"lon", some "X", none, []⟩, ⟨"time", some "T", none, [1]⟩, ⟨"t2", some "T", none, [2]⟩]
      "T" 1 (by decide) (by decide)
      (by intro i hi; interval_cases i; decide)
  · exact C10_get_dimension_name_first_match.2.2.1
      ⟨true, 3, [⟨"lon", some "X", none, []⟩, ⟨"lat", some "Y", none, []⟩], 5, 1, 9, [], [], []⟩
      "tas" ⟨"Near-surface air temperature", some "temperature", "K", 3, "atmos"⟩
      rfl rfl (by decide)
      (by intro d hd; fin_cases hd <;> decide)

/-- C7: for 4-D fields the vertical level is selected by the declared unit
of the vertical coordinate, in priority order: `Pa` → nearest to 50000,
`hPa`/`mbar` → nearest to 500, `m`/`meters` → nearest to 1000,
`centimeters` → nearest to 100000; with no unit match, variables
`ua`/`va`/`wa` take the first level and anything else terminates with an
error.  In particular, for units `"Pa"` and a level list containing 50000
exactly once, the data of the 50000 level is selected regardless of the
storage order of the levels. -/
theorem C7_vertical_level_selection
    (ds : ReducedDataset) (v : String) (vi : VariableInfo) (tn : String) (td : Dim)
    (zn : String) (zd : Dim)
    (h1 : ds.hasVars = true) (h2 : ds.ndim = 4) (h3 : vi.dimensions = 4)
    (h4 : get_dimension_name ds.dims "T" = .ok tn) (h5 : findDim ds.dims tn = some td)
    (h6 : td.coords.length = 1 ∨ td.coords.length = 12)
    (h7 : get_dimension_name ds.dims "Z" = .ok zn) (h8 : findDim ds.dims zn = some zd) :
    (zd.units = some "Pa" →
      process_mean_min_max ds v vi = levelValuesAt ds (nearestIdx zd.coords 50000))
    ∧ (zd.units = some "hPa" ∨ zd.units = some "mbar" →
      process_mean_min_max ds v vi = levelValuesAt ds (nearestIdx zd.coords 500))
    ∧ (zd.units = some "m" ∨ zd.units = some "meters" →
      process_mean_min_max ds v vi = levelValuesAt ds (nearestIdx zd.coords 1000))
    ∧ (zd.units = some "centimeters" →
      process_mean_min_max ds v vi = levelValuesAt ds (nearestIdx zd.coords 100000))
    ∧ (∀ u, zd.units = some u →
      u ≠ "Pa" → u ≠ "hPa" → u ≠ "mbar" → u ≠ "m" → u ≠ "meters" → u ≠ "centimeters" →
      v = "ua" ∨ v = "va" ∨ v = "wa" →
      process_mean_min_max ds v vi = levelValuesAt ds 0)
    ∧ (∀ u, zd.units = some u →
      u ≠ "Pa" → u ≠ "hPa" → u ≠ "mbar" → u ≠ "m" → u ≠ "meters" → u ≠ "centimeters" →
      v ≠ "ua" → v ≠ "va" → v ≠ "wa" →
      process_mean_min_max ds v vi
        = .exited ("Error: " ++ v ++ " has unknown vertical units " ++ u ++
                   " in dimension " ++ zn) 0)
    ∧ (zd.units = some "Pa" → ∀ j, j < zd.coords.length →
      zd.coords.getD j 0 = 50000 →
      (∀ i, i < zd.coords.length → i ≠ j → zd.coords.getD i 0 ≠ 50000) →
      process_mean_min_max ds v vi
        = .ok (ds.levelMean.getD j 0, ds.levelMin.getD j 0, ds.levelMax.getD j 0)) := by
  have hgt : vi.dimensions > 2 := by omega
  have hne : ¬ vi.dimensions ≤ 3 := by omega
  have hnd : ds.ndim = vi.dimensions := by omega
  have hPa : zd.units = some "Pa" →
      process_mean_min_max ds v vi = levelValuesAt ds (nearestIdx zd.coords 50000) := by
    intro hu
    rw [process_mean_min_max]
    rcases h6 with h6a | h6a <;>
      simp [h1, hnd, h3, hgt, hne, h4, h5, h6a, h7, h8, hu]
  refine ⟨hPa, ?_, ?_, ?_, ?_, ?_, ?_⟩
  · intro hu
    rw [process_mean_min_max]
    rcases hu with hu | hu <;> rcases h6 with h6a | h6a <;>
      simp [h1, hnd, h3, hgt, hne, h4, h5, h6a, h7, h8, hu]
  · intro hu
    rw [process_mean_min_max]
    rcases hu with hu | hu <;> rcases h6 with h6a | h6a <;>
      simp [h1, hnd, h3, hgt, hne, h4, h5, h6a, h7, h8, hu]
  · intro hu
    rw [process_mean_min_max]
    rcases h6 with h6a | h6a <;>
      simp [h1, hnd, h3, hgt, hne, h4, h5, h6a, h7, h8, hu]
  · intro u hu hu1 hu2 hu3 hu4 hu5 hu6 hv
    rw [process_mean_min_max]
    rcases h6 with h6a | h6a <;>
      [skip; skip] <;>
      (rcases hv with hv | hv | hv <;>
        simp [h1, hnd, h3, hgt, hne, h4, h5, h6a, h7, h8, hu, hu1, hu2, hu3, hu4, hu5, hu6, hv])
  · intro u hu hu1 hu2 hu3 hu4 hu5 hu6 hv1 hv2 hv3
    rw [process_mean_min_max]
    rcases h6 with h6a | h6a <;>
      simp [h1, hnd, h3, hgt, hne, h4, h5, h6a, h7, h8, hu, hu1, hu2, hu3, hu4, hu5, hu6,
        hv1, hv2, hv3]
  · intro hu j hj hj50 huniq
    have hmem : (50000 : ℚ) ∈ zd.coords := by
      rw [← hj50]
      rw [List.getD_eq_getElem _ _ hj]
      exact List.getElem_mem hj
    have hne2 : zd.coords ≠ [] := by
      intro hnil
      rw [hnil] at hj
      simp at hj
    have hlt := nearestIdx_lt zd.coords 50000 hne2
    have hexact := nearestIdx_exact zd.coords 50000 hmem
    have hidx : nearestIdx zd.coords 50000 = j := by
      by_contra hcon
      exact huniq (nearestIdx zd.coords 50000) hlt hcon hexact
    have := hPa hu
    rw [this, levelValuesAt, hidx]

/-- C7 (witness): a 4-D field with vertical units `"Pa"` and levels stored
in the order `[25000, 100000, 50000]`; the selected data is that of the
level with coordinate 50000 (position 2). -/
theorem C7_witness :
    process_mean_min_max
        ⟨true, 4,
         [⟨"time", some "T", none, [1]⟩, ⟨"plev", some "Z", some "Pa", [25000, 100000, 50000]⟩],
         0, 0, 0, [7, 8, 9], [4, 5, 6], [10, 11, 12]⟩
        "ta" ⟨"Temperature on pressure levels", none, "K", 4, "atmos"⟩
      = .ok (9, 6, 12) := by
  have h := (C7_vertical_level_selection
      ⟨true, 4,
       [⟨"time", some "T", none, [1]⟩, ⟨"plev", some "Z", some "Pa", [25000, 100000, 50000]⟩],
       0, 0, 0, [7, 8, 9], [4, 5, 6], [10, 11, 12]⟩
      "ta" ⟨"Temperature on pressure levels", none, "K", 4, "atmos"⟩
      "time" ⟨"time", some "T", none, [1]⟩
      "plev" ⟨"plev", some "Z", some "Pa", [25000, 100000, 50000]⟩
      rfl rfl rfl rfl rfl (Or.inl rfl) rfl rfl).2.2.2.2.2.2
  have h2 := h rfl 2 (by decide) rfl
    (by intro i hi hij
        have hi3 : i < 3 := by simpa using hi
        interval_cases i
        · decide
        · decide
        · exact absurd rfl hij)
  exact h2

theorem filterMap_const (sub : List (Option ℚ)) (v : ℚ)
    (hall : ∀ x ∈ sub, x = some v) :
    sub.filterMap id = List.replicate sub.length v := by
  induction sub with
  | nil => simp
  | cons a t ih =>
    have ha : a = some v := hall a (List.mem_cons_self a t)
    rw [ha]
    simp only [List.filterMap_cons, id, List.length_cons, List.replicate_succ]
    rw [ih (fun x hx => hall x (List.mem_cons_of_mem a hx))]

theorem subgroup_index_lt (row : List (Option ℚ)) (c : Nat) (hc : c < row.length) :
    c / 3 < (sliceEvery3 row (c % 3)).length := by
  rw [sliceEvery3_length]
  have h3 : c % 3 < 3 := Nat.mod_lt _ (by omega)
  have : c % 3 + 3 * (c / 3) = c := Nat.mod_add_div c 3
  omega

theorem subgroup_getD_self (row : List (Option ℚ)) (c : Nat) :
    (sliceEvery3 row (c % 3)).getD (c / 3) none = row.getD c none := by
  rw [sliceEvery3_getD]
  congr 1
  exact Nat.mod_add_div c 3

/-- C2: for every overview table, after stripping the unit column and the
three median columns the scorer partitions the remaining columns into the
three interleaved statistic groups (positions ≡ 0, 1, 2 mod 3), and every
cell's score is `abs((value - row_median) / d)` where `row_median` and `d`
are the median and sample standard deviation of the row across the
group's columns, with `d` replaced by 1 when the standard deviation is 0;
consequently a group whose (at least two) values are all present and
equal scores exactly 0 in every cell. -/
theorem C2_z_score_formula_and_zero_spread (S : SqrtFn) (df : List TableRow)
    (r c : Nat) (row : TableRow)
    (hr : r < df.length) (hrow : df.getD r ⟨"", []⟩ = row)
    (hc : c < (stripRow row).length) :
    (((compute_group_z_scores S df).getD r []).getD c none
      = match (stripRow row).getD c none,
              medianQ ((sliceEvery3 (stripRow row) (c % 3)).filterMap id),
              sampleStd S ((sliceEvery3 (stripRow row) (c % 3)).filterMap id) with
        | some xv, some mv, some sv => some |(xv - mv) / (if sv = 0 then 1 else sv)|
        | _, _, _ => none)
    ∧ (∀ v : ℚ, 2 ≤ (sliceEvery3 (stripRow row) (c % 3)).length →
        (∀ x ∈ sliceEvery3 (stripRow row) (c % 3), x = some v) →
        ((compute_group_z_scores S df).getD r []).getD c none = some 0) := by
  have hcell := z_scores_cell S df r c row hr hrow hc
  constructor
  · rw [hcell]
    cases hx : (stripRow row).getD c none with
    | none => simp [rawZ, hx]
    | some xv =>
      cases hm : medianQ ((sliceEvery3 (stripRow row) (c % 3)).filterMap id) with
      | none => simp [rawZ, rowMedian, hx, hm]
      | some mv =>
        cases hsd : sampleStd S ((sliceEvery3 (stripRow row) (c % 3)).filterMap id) with
        | none => simp [rawZ, rowMedian, zDenom, rowStd, hx, hm, hsd]
        | some sv =>
          simp only [rawZ, rowMedian, zDenom, rowStd, hx, hm, hsd, Option.map_some]
          by_cases h0 : sv = 0 <;> simp [h0]
  · intro v hlen hall
    rw [hcell]
    have hvals := filterMap_const _ v hall
    set sub := sliceEvery3 (stripRow row) (c % 3) with hsub
    have hrep_ne : List.replicate sub.length v ≠ [] := by
      have hl0 : sub.length ≠ 0 := by omega
      simpa using hl0
    have hmed : rowMedian sub = some v := by
      rw [rowMedian, hvals]
      exact medianQ_const _ v hrep_ne (fun x hx => (List.eq_of_mem_replicate hx))
    have hvar : sampleVariance (sub.filterMap id) = some 0 := by
      rw [hvals]
      apply sampleVariance_const _ v (by simpa using hlen)
      exact fun x hx => List.eq_of_mem_replicate hx
    have hstd : rowStd S sub = some 0 := by
      rw [rowStd, sampleStd, hvar]
      have hf0 := (S.eq_zero_iff 0 le_rfl).mpr rfl
      simp [hf0]
    have hden : zDenom S sub = some 1 := by
      rw [zDenom, hstd]
      norm_num
    have hx : (stripRow row).getD c none = some v := by
      rw [← subgroup_getD_self (stripRow row) c, ← hsub]
      have hdiv := subgroup_index_lt (stripRow row) c hc
      rw [← hsub] at hdiv
      rw [List.getD_eq_getElem _ _ hdiv]
      exact hall _ (List.getElem_mem hdiv)
    have hraw : rawZ S sub ((stripRow row).getD c none) = some 0 := by
      rw [hx]
      simp only [rawZ, hmed, hden]
      norm_num
    rw [hraw]
    simp

/-- C2 (witness): a concrete two-model table whose min-group values are
both 1; the score of the first min cell is 0. -/
theorem C2_witness :
    ((compute_group_z_scores sqrtTrivial
        [⟨"$K$", [some 1, some 2, some 3, some 1, some 5, some 6,
                  some 1, some 7, some 9]⟩]).getD 0 []).getD 0 none
      = some 0 := by
  exact (C2_z_score_formula_and_zero_spread sqrtTrivial
      [⟨"$K$", [some 1, some 2, some 3, some 1, some 5, some 6,
                some 1, some 7, some 9]⟩] 0 0
      ⟨"$K$", [some 1, some 2, some 3, some 1, some 5, some 6,
               some 1, some 7, some 9]⟩
      (by decide) rfl (by decide)).2 1 (by decide) (by decide)

theorem compute_row (S : SqrtFn) (df : List TableRow) (r : Nat) (hr : r < df.length) :
    (compute_group_z_scores S df).getD r []
      = (assembleZRow S (stripRow (df.getD r ⟨"", []⟩))).map (Option.map (fun z => |z|)) := by
  rw [compute_group_z_scores, List.getD_eq_getElem _ _ (by simpa using hr)]
  rw [List.getElem_map, List.getElem_map, List.getElem_map]
  rw [← List.getD_eq_getElem _ (⟨"", []⟩ : TableRow) hr]

theorem mapIdx_getD (l : List (Option ℚ)) (f : Nat → Option ℚ → Option ℚ)
    (hf : ∀ c, f c none = none) (c : Nat) :
    (l.mapIdx f).getD c none = f c (l.getD c none) := by
  by_cases hc : c < l.length
  · have hc2 : c < (l.mapIdx f).length := by simpa using hc
    rw [List.getD_eq_getElem _ _ hc2, List.getElem_mapIdx, ← List.getD_eq_getElem _ none hc]
  · rw [List.getD_eq_default _ _ (by simpa using not_lt.1 hc),
      List.getD_eq_default _ _ (not_lt.1 hc), hf]

theorem getD_map_opt (l : List (Option ℚ)) (h : ℚ → ℚ) (k : Nat) :
    (l.map (Option.map h)).getD k none = Option.map h (l.getD k none) := by
  by_cases hk : k < l.length
  · rw [List.getD_eq_getElem _ _ (by simpa using hk), List.getElem_map,
      ← List.getD_eq_getElem _ none hk]
  · rw [List.getD_eq_default _ _ (by simpa using not_lt.1 hk),
      List.getD_eq_default _ _ (not_lt.1 hk)]
    rfl

theorem take_getD (l : List (Option ℚ)) (m c : Nat) :
    (l.take m).getD c none = if c < m then l.getD c none else none := by
  by_cases hc : c < (l.take m).length
  · have hcm : c < m := by
      have := hc
      rw [List.length_take] at this
      omega
    have hcl : c < l.length := by
      have := hc
      rw [List.length_take] at this
      omega
    rw [List.getD_eq_getElem _ _ hc, List.getElem_take, if_pos hcm,
      ← List.getD_eq_getElem _ none hcl]
  · rw [List.getD_eq_default _ _ (not_lt.1 hc)]
    rw [List.length_take] at hc
    by_cases hcm : c < m
    · have hcl : ¬ c < l.length := by omega
      rw [if_pos hcm, List.getD_eq_default _ _ (not_lt.1 hcl)]
    · rw [if_neg hcm]

theorem strip_negGroupRow (g : Nat) (r : TableRow) :
    stripRow (negGroupRow g r)
      = (stripRow r).mapIdx (fun c x =>
          if c % 3 = g then Option.map (fun v => -v) x else x) := by
  have hf1 : ∀ c2, (fun (c3 : Nat) (x : Option ℚ) =>
      if c3 < r.vals.length - 3 ∧ c3 % 3 = g then Option.map (fun v => -v) x else x) c2 none
        = none := by
    intro c2
    by_cases h : c2 < r.vals.length - 3 ∧ c2 % 3 = g <;> simp [h]
  have hf2 : ∀ c2, (fun (c3 : Nat) (x : Option ℚ) =>
      if c3 % 3 = g then Option.map (fun v => -v) x else x) c2 none = none := by
    intro c2
    by_cases h : c2 % 3 = g <;> simp [h]
  apply ext_getD_option
  · simp [stripRow, negGroupRow, List.length_take]
  · intro c
    rw [stripRow, take_getD]
    have hlen : (negGroupRow g r).vals.length = r.vals.length := by
      simp [negGroupRow]
    rw [hlen]
    rw [show (negGroupRow g r).vals = r.vals.mapIdx (fun c3 x =>
        if c3 < r.vals.length - 3 ∧ c3 % 3 = g then Option.map (fun v => -v) x else x)
      from rfl]
    rw [mapIdx_getD r.vals (fun c3 x =>
        if c3 < r.vals.length - 3 ∧ c3 % 3 = g then Option.map (fun v => -v) x else x) hf1 c,
      mapIdx_getD (stripRow r) (fun c3 x =>
        if c3 % 3 = g then Option.map (fun v => -v) x else x) hf2 c]
    rw [stripRow, take_getD]
    by_cases hc : c < r.vals.length - 3
    · simp only [hc, if_true, true_and]
    · simp only [hc, if_false, false_and, if_false]
      by_cases hg : c % 3 = g <;> simp [hg]

theorem slice_mapIdx_neg (l : List (Option ℚ)) (g gg : Nat) (hgg : gg < 3) :
    sliceEvery3 (l.mapIdx (fun c x =>
        if c % 3 = g then Option.map (fun v => -v) x else x)) gg
      = if gg = g then (sliceEvery3 l gg).map (Option.map (fun v => -v))
        else sliceEvery3 l gg := by
  have hf : ∀ c2, (fun (c3 : Nat) (x : Option ℚ) =>
      if c3 % 3 = g then Option.map (fun v => -v) x else x) c2 none = none := by
    intro c2
    by_cases h : c2 % 3 = g <;> simp [h]
  by_cases hg : gg = g
  · rw [if_pos hg]
    apply ext_getD_option
    · simp [sliceEvery3_length]
    · intro k
      rw [sliceEvery3_getD, getD_map_opt, sliceEvery3_getD]
      rw [mapIdx_getD l (fun c3 x =>
          if c3 % 3 = g then Option.map (fun v => -v) x else x) hf (gg + 3 * k)]
      have hmod : (gg + 3 * k) % 3 = g := by omega
      rw [if_pos hmod]
  · rw [if_neg hg]
    apply ext_getD_option
    · simp [sliceEvery3_length]
    · intro k
      rw [sliceEvery3_getD, sliceEvery3_getD]
      rw [mapIdx_getD l (fun c3 x =>
          if c3 % 3 = g then Option.map (fun v => -v) x else x) hf (gg + 3 * k)]
      have hmod : ¬ (gg + 3 * k) % 3 = g := by omega
      rw [if_neg hmod]

theorem rowMedian_neg (sub : List (Option ℚ)) :
    rowMedian (sub.map (Option.map (fun v => -v)))
      = Option.map (fun m => -m) (rowMedian sub) := by
  rw [rowMedian, rowMedian, filterMap_id_map_neg, medianQ_neg]

theorem zDenom_neg (S : SqrtFn) (sub : List (Option ℚ)) :
    zDenom S (sub.map (Option.map (fun v => -v))) = zDenom S sub := by
  rw [zDenom, zDenom, rowStd, rowStd, sampleStd, sampleStd, filterMap_id_map_neg,
    sampleVariance_neg]

theorem rawZ_neg (S : SqrtFn) (sub : List (Option ℚ)) (x : Option ℚ) :
    rawZ S (sub.map (Option.map (fun v => -v))) (Option.map (fun v => -v) x)
      = Option.map (fun z => -z) (rawZ S sub x) := by
  have hm := rowMedian_neg sub
  have hd := zDenom_neg S sub
  cases x with
  | none => simp [rawZ, hm, hd]
  | some xv =>
    cases hmm : rowMedian sub with
    | none => simp [rawZ, hm, hmm, hd]
    | some mv =>
      cases hdd : zDenom S sub with
      | none => simp [rawZ, hm, hmm, hd, hdd]
      | some dv =>
        simp only [rawZ, hm, hmm, hd, hdd]
        show some ((-xv - -mv) / dv) = some (-((xv - mv) / dv))
        congr 1
        ring

/-- C9: every defined outlier score is non-negative, and uniformly
negating all values of one statistic group in every row of the table
leaves the scorer's entire output unchanged (in particular every score of
that group). -/
theorem C9_scores_nonneg_and_negation_invariant (S : SqrtFn) (df : List TableRow) :
    (∀ r c q, ((compute_group_z_scores S df).getD r []).getD c none = some q → 0 ≤ q)
    ∧ (∀ g, compute_group_z_scores S (df.map (negGroupRow g))
        = compute_group_z_scores S df) := by
  constructor
  · intro r c q hq
    by_cases hr : r < df.length
    · rw [compute_row S df r hr, getD_map_opt] at hq
      cases hz : (assembleZRow S (stripRow (df.getD r ⟨"", []⟩))).getD c none with
      | none =>
        rw [hz] at hq
        simp at hq
      | some z =>
        rw [hz] at hq
        have hq2 : (some |z| : Option ℚ) = some q := hq
        rw [Option.some.injEq] at hq2
        rw [← hq2]
        exact abs_nonneg z
    · have hout : (compute_group_z_scores S df).getD r [] = [] := by
        apply List.getD_eq_default
        simpa [compute_group_z_scores] using not_lt.1 hr
      rw [hout, List.getD_nil] at hq
      simp at hq
  · intro g
    apply List.ext_getElem
    · simp [compute_group_z_scores]
    · intro r h1 h2
      have hrd : r < df.length := by
        simpa [compute_group_z_scores] using h2
      have hrm : r < (df.map (negGroupRow g)).length := by simpa using hrd
      rw [← List.getD_eq_getElem _ ([] : List (Option ℚ)) h1,
        ← List.getD_eq_getElem _ ([] : List (Option ℚ)) h2]
      rw [compute_row S _ r (by simpa using hrd), compute_row S df r hrd]
      have hgetrow : (df.map (negGroupRow g)).getD r ⟨"", []⟩
          = negGroupRow g (df.getD r ⟨"", []⟩) := by
        rw [List.getD_eq_getElem _ _ hrm, List.getElem_map,
          ← List.getD_eq_getElem _ (⟨"", []⟩ : TableRow) hrd]
      rw [hgetrow]
      set row := df.getD r ⟨"", []⟩ with hrow
      have hf : ∀ c2, (fun (c3 : Nat) (x : Option ℚ) =>
          if c3 % 3 = g then Option.map (fun v => -v) x else x) c2 none = none := by
        intro c2
        by_cases h : c2 % 3 = g <;> simp [h]
      apply ext_getD_option
      · rw [List.length_map, List.length_map]
        rw [assembleZRow, assembleZRow]
        simp [strip_negGroupRow]
      · intro c
        rw [getD_map_opt, getD_map_opt]
        by_cases hc : c < (stripRow row).length
        · have hcneg : c < (stripRow (negGroupRow g row)).length := by
            rw [strip_negGroupRow]
            simpa using hc
          rw [assembleZRow_getD S _ c hcneg, assembleZRow_getD S _ c hc]
          rw [strip_negGroupRow]
          have hgg : c % 3 < 3 := Nat.mod_lt _ (by omega)
          rw [slice_mapIdx_neg _ g (c % 3) hgg]
          rw [mapIdx_getD (stripRow row) (fun c3 x =>
              if c3 % 3 = g then Option.map (fun v => -v) x else x) hf c]
          by_cases hgeq : c % 3 = g
          · rw [if_pos hgeq, if_pos hgeq, rawZ_neg]
            cases rawZ S (sliceEvery3 (stripRow row) (c % 3)) ((stripRow row).getD c none) with
            | none => simp
            | some z => simp
          · rw [if_neg hgeq, if_neg hgeq]
        · have hcneg : ¬ c < (stripRow (negGroupRow g row)).length := by
            rw [strip_negGroupRow]
            simpa using hc
          rw [List.getD_eq_default _ _ (by
              rw [assembleZRow]
              simpa using not_lt.1 hcneg),
            List.getD_eq_default _ _ (by
              rw [assembleZRow]
              simpa using not_lt.1 hc)]

/-- C9 (witness): a concrete two-model table; the score of the first min
cell evaluates to `3/2 ≥ 0`, and negating the min group leaves the scorer
output unchanged. -/
theorem C9_witness :
    (0 : ℚ) ≤ 3/2
    ∧ compute_group_z_scores sqrtTrivial
        ([⟨"$K$", [some 1, some 2, some 3, some 4, some 5, some 6,
                   some 0, some 0, some 0]⟩].map (negGroupRow 0))
      = compute_group_z_scores sqrtTrivial
        [⟨"$K$", [some 1, some 2, some 3, some 4, some 5, some 6,
                  some 0, some 0, some 0]⟩] := by
  have hcell := z_scores_cell sqrtTrivial
    [⟨"$K$", [some 1, some 2, some 3, some 4, some 5, some 6, some 0, some 0, some 0]⟩]
    0 0
    ⟨"$K$", [some 1, some 2, some 3, some 4, some 5, some 6, some 0, some 0, some 0]⟩
    (by decide) rfl (by decide)
  have hs : sliceEvery3 (stripRow
      (⟨"$K$", [some 1, some 2, some 3, some 4, some 5, some 6, some 0, some 0, some 0]⟩ :
        TableRow)) (0 % 3) = [some 1, some 4] := by decide
  have hx : (stripRow
      (⟨"$K$", [some 1, some 2, some 3, some 4, some 5, some 6, some 0, some 0, some 0]⟩ :
        TableRow)).getD 0 none = some 1 := by decide
  have hfm : ([some 1, some 4] : List (Option ℚ)).filterMap id = [1, 4] := by decide
  have hmed : rowMedian [some 1, some 4] = some (5/2) := by
    rw [rowMedian, hfm]
    norm_num [medianQ, List.insertionSort, List.orderedInsert]
  have hvar2 : sampleVariance [1, 4] = some (9/2) := by norm_num [sampleVariance]
  have hstd2 : rowStd sqrtTrivial [some 1, some 4] = some 1 := by
    rw [rowStd, hfm, sampleStd, hvar2]
    show some (sqrtTrivial.f (9/2)) = some 1
    norm_num [sqrtTrivial]
  have hden : zDenom sqrtTrivial [some 1, some 4] = some 1 := by
    rw [zDenom, hstd2]
    norm_num
  have hval : ((compute_group_z_scores sqrtTrivial
      [⟨"$K$", [some 1, some 2, some 3, some 4, some 5, some 6,
                some 0, some 0, some 0]⟩]).getD 0 []).getD 0 none = some (3/2) := by
    rw [hcell, hs, hx]
    simp only [rawZ, hmed, hden]
    norm_num
  exact ⟨(C9_scores_nonneg_and_negation_invariant sqrtTrivial
      [⟨"$K$", [some 1, some 2, some 3, some 4, some 5, some 6,
                some 0, some 0, some 0]⟩]).1 0 0 (3/2) hval,
    (C9_scores_nonneg_and_negation_invariant sqrtTrivial
      [⟨"$K$", [some 1, some 2, some 3, some 4, some 5, some 6,
                some 0, some 0, some 0]⟩]).2 0⟩

theorem extract_statCol (cells : List (Option (ℚ × ℚ × ℚ))) (meds : List (Option ℚ))
    (s : Nat) (hs : s < 3) :
    (List.range cells.length).map
        (fun i => (cells.flatMap tripList ++ meds).getD (3 * i + s) none)
      = cells.map (fun c => (tripList c).getD s none) := by
  apply ext_getD_option
  · simp
  · intro i
    by_cases hi : i < cells.length
    · have h1 : i < ((List.range cells.length).map
          (fun i => (cells.flatMap tripList ++ meds).getD (3 * i + s) none)).length := by
        simpa using hi
      rw [List.getD_eq_getElem _ _ h1, List.getElem_map, List.getElem_range]
      have h2 : 3 * i + s < (cells.flatMap tripList).length := by
        rw [flatMap_trip_length]
        omega
      rw [List.getD_append _ _ _ _ h2, flatMap_trip_getD cells i s hs]
      have h3 : i < (cells.map (fun c => (tripList c).getD s none)).length := by
        simpa using hi
      rw [List.getD_eq_getElem _ _ h3, List.getElem_map,
        ← List.getD_eq_getElem _ (none : Option (ℚ × ℚ × ℚ)) hi]
    · rw [List.getD_eq_default _ _ (by simpa using not_lt.1 hi),
        List.getD_eq_default _ _ (by simpa using not_lt.1 hi)]

/-- C6: for every variable row of every overview table and every statistic
`s` (0 = min, 1 = mean, 2 = max), the median cell is missing when every
model value for that statistic is missing, and otherwise equals the
median of the non-missing model values rounded to one decimal place
(`np.round`, ties to even). -/
theorem C6_median_cells (O : TableOracle) (models : List (String × ModelInfo))
    (realm : String) (k : String) (row : TableRow) (s : Nat) (hs : s < 3)
    (hmem : (k, row) ∈ process_single_table O models realm) :
    row.vals.getD (3 * models.length + s) none
      = (if ((List.range models.length).map
              (fun i => row.vals.getD (3 * i + s) none)).all (fun v => v.isNone)
         then none
         else (medianQ (((List.range models.length).map
              (fun i => row.vals.getD (3 * i + s) none)).filterMap id)).map round1) := by
  rcases List.mem_map.1 hmem with ⟨p, hp, hpair⟩
  have hrow : row = buildRow O models p.1 p.2 := by
    have := congrArg Prod.snd hpair
    simpa using this.symm
  subst hrow
  rw [show (buildRow O models p.1 p.2).vals
      = (models.map (fun m => modelCells O p.1 m.1)).flatMap tripList
        ++ [medianCell ((models.map (fun m => modelCells O p.1 m.1)).map
              (Option.map (fun c => c.1))),
            medianCell ((models.map (fun m => modelCells O p.1 m.1)).map
              (Option.map (fun c => c.2.1))),
            medianCell ((models.map (fun m => modelCells O p.1 m.1)).map
              (Option.map (fun c => c.2.2)))] from rfl]
  set cells := models.map (fun m => modelCells O p.1 m.1) with hcells
  have hcl : cells.length = models.length := by simp [hcells]
  have hflatlen : (cells.flatMap tripList).length = 3 * models.length := by
    rw [flatMap_trip_length, hcl]
  have hmedget : ((cells.flatMap tripList)
        ++ [medianCell (cells.map (Option.map (fun c => c.1))),
            medianCell (cells.map (Option.map (fun c => c.2.1))),
            medianCell (cells.map (Option.map (fun c => c.2.2)))]).getD
      (3 * models.length + s) none
      = [medianCell (cells.map (Option.map (fun c => c.1))),
         medianCell (cells.map (Option.map (fun c => c.2.1))),
         medianCell (cells.map (Option.map (fun c => c.2.2)))].getD s none := by
    rw [List.getD_append_right _ _ _ _ (by omega), hflatlen]
    congr 1
    omega
  rw [hmedget]
  have hext := extract_statCol cells
    [medianCell (cells.map (Option.map (fun c => c.1))),
     medianCell (cells.map (Option.map (fun c => c.2.1))),
     medianCell (cells.map (Option.map (fun c => c.2.2)))] s hs
  rw [hcl] at hext
  rw [hext]
  interval_cases s
  · rw [show cells.map (fun c => (tripList c).getD 0 none)
        = cells.map (Option.map (fun c => c.1)) from rfl]
    rw [show ([medianCell (cells.map (Option.map (fun c => c.1))),
         medianCell (cells.map (Option.map (fun c => c.2.1))),
         medianCell (cells.map (Option.map (fun c => c.2.2)))].getD 0 none)
        = medianCell (cells.map (Option.map (fun c => c.1))) from rfl]
    rw [medianCell]
  · rw [show cells.map (fun c => (tripList c).getD 1 none)
        = cells.map (Option.map (fun c => c.2.1)) from rfl]
    rw [show ([medianCell (cells.map (Option.map (fun c => c.1))),
         medianCell (cells.map (Option.map (fun c => c.2.1))),
         medianCell (cells.map (Option.map (fun c => c.2.2)))].getD 1 none)
        = medianCell (cells.map (Option.map (fun c => c.2.1))) from rfl]
    rw [medianCell]
  · rw [show cells.map (fun c => (tripList c).getD 2 none)
        = cells.map (Option.map (fun c => c.2.2)) from rfl]
    rw [show ([medianCell (cells.map (Option.map (fun c => c.1))),
         medianCell (cells.map (Option.map (fun c => c.2.1))),
         medianCell (cells.map (Option.map (fun c => c.2.2)))].getD 2 none)
        = medianCell (cells.map (Option.map (fun c => c.2.2))) from rfl]
    rw [medianCell]

/-- C6 (witness): the mean-statistic median cell of the `tas` row of a
one-model table with no files present is missing, as the theorem
instantiates. -/
theorem C6_witness :
    (buildRow ⟨fun _ _ => false, fun _ _ => (0, 0, 0)⟩ [("M1", ⟨"v1.0", "F", "M1", []⟩)]
        "tas" ⟨"Near-surface air temperature", some "temperature", "K", 3, "atmos"⟩).vals.getD
      (3 * 1 + 1) none
      = (if ((List.range 1).map
              (fun i => (buildRow ⟨fun _ _ => false, fun _ _ => (0, 0, 0)⟩
                  [("M1", ⟨"v1.0", "F", "M1", []⟩)] "tas"
                  ⟨"Near-surface air temperature", some "temperature", "K", 3, "atmos"⟩).vals.getD
                (3 * i + 1) none)).all (fun v => v.isNone)
         then none
         else (medianQ ((((List.range 1).map
              (fun i => (buildRow ⟨fun _ _ => false, fun _ _ => (0, 0, 0)⟩
                  [("M1", ⟨"v1.0", "F", "M1", []⟩)] "tas"
                  ⟨"Near-surface air temperature", some "temperature", "K", 3, "atmos"⟩).vals.getD
                (3 * i + 1) none))).filterMap id)).map round1) := by
  have h := C6_median_cells ⟨fun _ _ => false, fun _ _ => (0, 0, 0)⟩
    [("M1", ⟨"v1.0", "F", "M1", []⟩)] "atmos" "tas"
    (buildRow ⟨fun _ _ => false, fun _ _ => (0, 0, 0)⟩ [("M1", ⟨"v1.0", "F", "M1", []⟩)]
      "tas" ⟨"Near-surface air temperature", some "temperature", "K", 3, "atmos"⟩)
    1 (by decide)
    (List.mem_map.2 ⟨("tas", ⟨"Near-surface air temperature", some "temperature", "K", 3,
        "atmos"⟩), by decide, rfl⟩)
  simpa using h

theorem all_none_filterMap (l : List (Option ℚ))
    (h : ∀ i, i < l.length → l.getD i none = none) : l.filterMap id = [] := by
  induction l with
  | nil => simp
  | cons a t ih =>
    have ha : a = none := by
      have := h 0 (by simp)
      simpa using this
    rw [ha]
    simp only [List.filterMap_cons, id]
    exact ih (fun i hi => by
      have := h (i + 1) (by simpa using hi)
      simpa using this)

theorem filterMap_single (l : List (Option ℚ)) (j : Nat) (v : ℚ)
    (hj : j < l.length) (hjv : l.getD j none = some v)
    (hothers : ∀ i, i < l.length → i ≠ j → l.getD i none = none) :
    l.filterMap id = [v] := by
  induction l generalizing j with
  | nil => simp at hj
  | cons a t ih =>
    cases j with
    | zero =>
      have ha : a = some v := by simpa using hjv
      rw [ha]
      have ht : t.filterMap id = [] := all_none_filterMap t (fun i hi => by
        have := hothers (i + 1) (by simpa using hi) (by omega)
        simpa using this)
      simp [List.filterMap_cons, ht]
    | succ j2 =>
      have ha : a = none := by
        have := hothers 0 (by simp) (by omega)
        simpa using this
      rw [ha]
      simp only [List.filterMap_cons, id]
      exact ih j2 (by simpa using hj) (by simpa using hjv)
        (fun i hi hij => by
          have := hothers (i + 1) (by simpa using hi) (by omega)
          simpa using this)

theorem getD_map_cells (cells : List (Option (ℚ × ℚ × ℚ)))
    (f : Option (ℚ × ℚ × ℚ) → Option ℚ) (hf : f none = none) (i : Nat) :
    (cells.map f).getD i none = f (cells.getD i none) := by
  by_cases hi : i < cells.length
  · rw [List.getD_eq_getElem _ _ (by simpa using hi), List.getElem_map,
      ← List.getD_eq_getElem _ none hi]
  · rw [List.getD_eq_default _ _ (by simpa using not_lt.1 hi),
      List.getD_eq_default _ _ (not_lt.1 hi), hf]

theorem tripList_none_getD (s : Nat) : (tripList none).getD s none = none := by
  rcases s with _ | _ | _ | s2 <;> simp [tripList, List.getD]

/-- Shared analysis of the one-present-model scenario: with variable `tas`
present for exactly the model at position `j` (scalars
`(gmean, gmin, gmax)`) and absent for every other model, the built row
has that model's three cells populated, every other model's cells
missing, the median cells equal to the rounded scalars, and the z-score
of each of the present model's cells is NaN (`none`), because the sample
standard deviation of a single value is NaN. -/
theorem one_present_row (O : TableOracle) (models : List (String × ModelInfo)) (j : Nat)
    (gmean gmin gmax : ℚ)
    (hj : j < models.length)
    (hpj : O.present "tas" ((models.getD j ("", ⟨"", "", "", []⟩)).1) = true)
    (hothers : ∀ i, i < models.length → i ≠ j →
      O.present "tas" ((models.getD i ("", ⟨"", "", "", []⟩)).1) = false)
    (hstats : O.stats "tas" ((models.getD j ("", ⟨"", "", "", []⟩)).1) = (gmean, gmin, gmax))
    (vinfo : VariableInfo) :
    ((buildRow O models "tas" vinfo).vals.getD (3 * j) none = some gmin
      ∧ (buildRow O models "tas" vinfo).vals.getD (3 * j + 1) none = some gmean
      ∧ (buildRow O models "tas" vinfo).vals.getD (3 * j + 2) none = some gmax)
    ∧ (∀ i, i < models.length → i ≠ j → ∀ s, s < 3 →
        (buildRow O models "tas" vinfo).vals.getD (3 * i + s) none = none)
    ∧ ((buildRow O models "tas" vinfo).vals.getD (3 * models.length) none
          = some (round1 gmin)
      ∧ (buildRow O models "tas" vinfo).vals.getD (3 * models.length + 1) none
          = some (round1 gmean)
      ∧ (buildRow O models "tas" vinfo).vals.getD (3 * models.length + 2) none
          = some (round1 gmax))
    ∧ (∀ (S : SqrtFn) (df : List TableRow) (r : Nat), r < df.length →
        df.getD r ⟨"", []⟩ = buildRow O models "tas" vinfo → ∀ s, s < 3 →
        ((compute_group_z_scores S df).getD r []).getD (3 * j + s) none = none) := by
  have hconv : conversion_factors.lookup "tas" = none := by decide
  set cells := models.map (fun m => modelCells O "tas" m.1) with hcellsdef
  have hcl : cells.length = models.length := by simp [hcellsdef]
  have hcell_j : cells.getD j none = some (gmin, gmean, gmax) := by
    rw [hcellsdef, List.getD_eq_getElem _ _ (by simpa using hj), List.getElem_map,
      ← List.getD_eq_getElem _ (("", ⟨"", "", "", []⟩) : String × ModelInfo) hj]
    rw [modelCells, hpj, hconv, hstats]
    rfl
  have hcell_i : ∀ i, i < models.length → i ≠ j → cells.getD i none = none := by
    intro i hi hij
    rw [hcellsdef, List.getD_eq_getElem _ _ (by simpa using hi), List.getElem_map,
      ← List.getD_eq_getElem _ (("", ⟨"", "", "", []⟩) : String × ModelInfo) hi]
    rw [modelCells, hothers i hi hij]
    simp
  have hvals : (buildRow O models "tas" vinfo).vals
      = cells.flatMap tripList
        ++ [medianCell (cells.map (Option.map (fun c => c.1))),
            medianCell (cells.map (Option.map (fun c => c.2.1))),
            medianCell (cells.map (Option.map (fun c => c.2.2)))] := rfl
  have hflatlen : (cells.flatMap tripList).length = 3 * models.length := by
    rw [flatMap_trip_length, hcl]
  have hcellget : ∀ i s2, i < models.length → s2 < 3 →
      (buildRow O models "tas" vinfo).vals.getD (3 * i + s2) none
        = (tripList (cells.getD i none)).getD s2 none := by
    intro i s2 hi hs2
    rw [hvals, List.getD_append _ _ _ _ (by rw [hflatlen]; omega),
      flatMap_trip_getD cells i s2 hs2]
  have hstat : ∀ (f : Option (ℚ × ℚ × ℚ) → Option ℚ) (w : ℚ),
      f none = none → f (some (gmin, gmean, gmax)) = some w →
      medianCell (cells.map f) = some (round1 w) := by
    intro f w hf hfj
    have hgj : (cells.map f).getD j none = some w := by
      rw [getD_map_cells cells f hf, hcell_j, hfj]
    have hgi : ∀ i, i < (cells.map f).length → i ≠ j →
        (cells.map f).getD i none = none := by
      intro i hi hij
      rw [getD_map_cells cells f hf, hcell_i i (by simpa [hcl] using hi) hij, hf]
    have hfm : (cells.map f).filterMap id = [w] :=
      filterMap_single _ j w (by simpa [hcl] using hj) hgj hgi
    have hall : (cells.map f).all (fun v => v.isNone) = false := by
      rw [List.all_eq_false]
      refine ⟨some w, ?_, by simp⟩
      have hjl : j < (cells.map f).length := by simpa [hcl] using hj
      rw [← hgj, List.getD_eq_getElem _ _ hjl]
      exact List.getElem_mem hjl
    rw [medianCell, hall]
    simp only [Bool.false_eq_true, if_false]
    rw [hfm, medianQ_singleton]
    rfl
  refine ⟨⟨?_, ?_, ?_⟩, ?_, ⟨?_, ?_, ?_⟩, ?_⟩
  · have h1 := hcellget j 0 hj (by omega)
    rw [hcell_j] at h1
    simpa using h1
  · have h1 := hcellget j 1 hj (by omega)
    rw [hcell_j] at h1
    simpa using h1
  · have h1 := hcellget j 2 hj (by omega)
    rw [hcell_j] at h1
    simpa using h1
  · intro i hi hij s hs
    have h1 := hcellget i s hi hs
    rw [hcell_i i hi hij, tripList_none_getD] at h1
    exact h1
  · have hmg : (buildRow O models "tas" vinfo).vals.getD (3 * models.length) none
        = medianCell (cells.map (Option.map (fun c => c.1))) := by
      rw [hvals, List.getD_append_right _ _ _ _ (by omega), hflatlen]
      simp
    rw [hmg]
    exact hstat (Option.map (fun c => c.1)) gmin rfl rfl
  · have hmg : (buildRow O models "tas" vinfo).vals.getD (3 * models.length + 1) none
        = medianCell (cells.map (Option.map (fun c => c.2.1))) := by
      rw [hvals, List.getD_append_right _ _ _ _ (by omega), hflatlen]
      have : 3 * models.length + 1 - 3 * models.length = 1 := by omega
      rw [this]
      rfl
    rw [hmg]
    exact hstat (Option.map (fun c => c.2.1)) gmean rfl rfl
  · have hmg : (buildRow O models "tas" vinfo).vals.getD (3 * models.length + 2) none
        = medianCell (cells.map (Option.map (fun c => c.2.2))) := by
      rw [hvals, List.getD_append_right _ _ _ _ (by omega), hflatlen]
      have : 3 * models.length + 2 - 3 * models.length = 2 := by omega
      rw [this]
      rfl
    rw [hmg]
    exact hstat (Option.map (fun c => c.2.2)) gmax rfl rfl
  · intro S df r hr hdr s hs
    have hstrip : stripRow (buildRow O models "tas" vinfo) = cells.flatMap tripList := by
      rw [stripRow, hvals]
      have hlen3 : (cells.flatMap tripList
          ++ [medianCell (cells.map (Option.map (fun c => c.1))),
              medianCell (cells.map (Option.map (fun c => c.2.1))),
              medianCell (cells.map (Option.map (fun c => c.2.2)))]).length - 3
          = (cells.flatMap tripList).length := by
        simp
      rw [hlen3, List.take_left]
    have hc : 3 * j + s < (stripRow (buildRow O models "tas" vinfo)).length := by
      rw [hstrip, hflatlen]
      omega
    have hcell := z_scores_cell S df r (3 * j + s) (buildRow O models "tas" vinfo) hr hdr hc
    rw [hcell]
    have hmod : (3 * j + s) % 3 = s := by omega
    rw [hstrip, hmod, slice_flatMap_trip cells s hs]
    set sub := cells.map (fun c => (tripList c).getD s none) with hsubdef
    have hw : ∃ w, sub.getD j none = some w := by
      rw [hsubdef, getD_map_cells cells _ (tripList_none_getD s) j, hcell_j]
      rcases (show s = 0 ∨ s = 1 ∨ s = 2 by omega) with rfl | rfl | rfl
      · exact ⟨gmin, rfl⟩
      · exact ⟨gmean, rfl⟩
      · exact ⟨gmax, rfl⟩
    obtain ⟨w, hwj⟩ := hw
    have hwi : ∀ i, i < sub.length → i ≠ j → sub.getD i none = none := by
      intro i hi hij
      rw [hsubdef] at hi
      rw [List.length_map, hcl] at hi
      rw [hsubdef, getD_map_cells cells _ (tripList_none_getD s) i,
        hcell_i i hi hij, tripList_none_getD]
    have hfm : sub.filterMap id = [w] :=
      filterMap_single sub j w (by simpa [hsubdef, hcl] using hj) hwj hwi
    have hstd_none : rowStd S sub = none := by
      rw [rowStd, hfm, sampleStd, sampleVariance_short _ (by simp)]
      rfl
    have hden_none : zDenom S sub = none := by
      rw [zDenom, hstd_none]
      rfl
    have hraw : rawZ S sub ((cells.flatMap tripList).getD (3 * j + s) none) = none := by
      cases hx : (cells.flatMap tripList).getD (3 * j + s) none with
      | none => simp [rawZ]
      | some xv =>
        cases hm : rowMedian sub with
        | none => simp [rawZ, hm]
        | some mv => simp [rawZ, hm, hden_none]
    rw [hraw]
    rfl

theorem table_head_atmos (O : TableOracle) (models : List (String × ModelInfo)) :
    (process_single_table O models "atmos").getD 0 ("", ⟨"", []⟩)
      = ("tas", buildRow O models "tas"
          ⟨"Near-surface air temperature", some "temperature", "K", 3, "atmos"⟩) := by
  have hlen0 : 0 < (tableVarsEntries "atmos").length := by decide
  have hm0 : 0 < (process_single_table O models "atmos").length := by
    simpa [process_single_table] using hlen0
  rw [process_single_table, List.getD_eq_getElem _ _ (by simpa using hlen0),
    List.getElem_map,
    ← List.getD_eq_getElem _ (("", ⟨"", none, "", 0, ""⟩) : String × VariableInfo) hlen0]
  rw [show (tableVarsEntries "atmos").getD 0 ("", ⟨"", none, "", 0, ""⟩)
      = ("tas", ⟨"Near-surface air temperature", some "temperature", "K", 3, "atmos"⟩)
    from by decide]

/-- C1 (amended): for a `process_single_table` run on realm `atmos` in
which exactly one model has a present file for `tas` (scalars
`(gmean, gmin, gmax)`), the `tas` row — the first row of the table — has
that model's min/mean/max cells populated, every other model's cells
missing, and the median columns equal to the rounded scalars; but the
outlier score computed for the sole present cell is NaN (undefined), not
0, because the sample standard deviation (`ddof = 1`) of a single value
is NaN, which `std_devs + (std_devs == 0)` does not replace by 1. -/
theorem C1_one_present_model (O : TableOracle) (models : List (String × ModelInfo))
    (j : Nat) (gmean gmin gmax : ℚ)
    (hj : j < models.length)
    (hpj : O.present "tas" ((models.getD j ("", ⟨"", "", "", []⟩)).1) = true)
    (hothers : ∀ i, i < models.length → i ≠ j →
      O.present "tas" ((models.getD i ("", ⟨"", "", "", []⟩)).1) = false)
    (hstats : O.stats "tas" ((models.getD j ("", ⟨"", "", "", []⟩)).1)
      = (gmean, gmin, gmax)) :
    (process_single_table O models "atmos").getD 0 ("", ⟨"", []⟩)
      = ("tas", buildRow O models "tas"
          ⟨"Near-surface air temperature", some "temperature", "K", 3, "atmos"⟩)
    ∧ ((buildRow O models "tas"
          ⟨"Near-surface air temperature", some "temperature", "K", 3, "atmos"⟩).vals.getD
          (3 * j) none = some gmin
      ∧ (buildRow O models "tas"
          ⟨"Near-surface air temperature", some "temperature", "K", 3, "atmos"⟩).vals.getD
          (3 * j + 1) none = some gmean
      ∧ (buildRow O models "tas"
          ⟨"Near-surface air temperature", some "temperature", "K", 3, "atmos"⟩).vals.getD
          (3 * j + 2) none = some gmax)
    ∧ (∀ i, i < models.length → i ≠ j → ∀ s, s < 3 →
        (buildRow O models "tas"
          ⟨"Near-surface air temperature", some "temperature", "K", 3, "atmos"⟩).vals.getD
          (3 * i + s) none = none)
    ∧ (buildRow O models "tas"
        ⟨"Near-surface air temperature", some "temperature", "K", 3, "atmos"⟩).vals.getD
        (3 * models.length + 1) none = some (round1 gmean)
    ∧ (∀ (S : SqrtFn) (df : List TableRow) (r : Nat), r < df.length →
        df.getD r ⟨"", []⟩ = buildRow O models "tas"
          ⟨"Near-surface air temperature", some "temperature", "K", 3, "atmos"⟩ →
        ∀ s, s < 3 →
        ((compute_group_z_scores S df).getD r []).getD (3 * j + s) none = none) := by
  have h := one_present_row O models j gmean gmin gmax hj hpj hothers hstats
    ⟨"Near-surface air temperature", some "temperature", "K", 3, "atmos"⟩
  exact ⟨table_head_atmos O models, h.1, h.2.1, h.2.2.1.2.1, h.2.2.2⟩

/-- C1 (counterexample): the end-to-end scenario with only `CESM1.2-CAM5`
present for `tas` (mean 290.1 K): the median mean cell of the `tas` row
is 290.1, but the outlier score of the sole present mean cell is NaN
(`none`), not defined-and-zero as claimed. -/
theorem C1_counterexample :
    ((compute_group_z_scores sqrtTrivial
        ((process_single_table
            ⟨fun v m => v == "tas" && m == "CESM1.2-CAM5", fun _ _ => (2901/10, 280, 300)⟩
            model_dict "atmos").map Prod.snd)).getD 0 []).getD 1 none = none
    ∧ (((process_single_table
            ⟨fun v m => v == "tas" && m == "CESM1.2-CAM5", fun _ _ => (2901/10, 280, 300)⟩
            model_dict "atmos").map Prod.snd).getD 0 ⟨"", []⟩).vals.getD (3 * 9 + 1) none
        = some (2901/10) := by
  have hhelper := one_present_row
    ⟨fun v m => v == "tas" && m == "CESM1.2-CAM5", fun _ _ => (2901/10, 280, 300)⟩
    model_dict 0 (2901/10) 280 300 (by decide) (by decide)
    (by intro i hi hij
        have hi9 : i < 9 := by simpa using hi
        interval_cases i <;> first | (exact absurd rfl hij) | decide)
    rfl ⟨"Near-surface air temperature", some "temperature", "K", 3, "atmos"⟩
  have hlen0 : 0 < (tableVarsEntries "atmos").length := by decide
  have h0 : 0 < (process_single_table
      ⟨fun v m => v == "tas" && m == "CESM1.2-CAM5", fun _ _ => (2901/10, 280, 300)⟩
      model_dict "atmos").length := by
    simpa [process_single_table] using hlen0
  have hdr : ((process_single_table
      ⟨fun v m => v == "tas" && m == "CESM1.2-CAM5", fun _ _ => (2901/10, 280, 300)⟩
      model_dict "atmos").map Prod.snd).getD 0 ⟨"", []⟩
      = buildRow ⟨fun v m => v == "tas" && m == "CESM1.2-CAM5", fun _ _ => (2901/10, 280, 300)⟩
          model_dict "tas"
          ⟨"Near-surface air temperature", some "temperature", "K", 3, "atmos"⟩ := by
    rw [List.getD_eq_getElem _ _ (by simpa using h0), List.getElem_map,
      ← List.getD_eq_getElem _ (("", ⟨"", []⟩) : String × TableRow) h0, table_head_atmos]
  constructor
  · have hz := hhelper.2.2.2 sqrtTrivial
      ((process_single_table
          ⟨fun v m => v == "tas" && m == "CESM1.2-CAM5", fun _ _ => (2901/10, 280, 300)⟩
          model_dict "atmos").map Prod.snd)
      0 (by simpa using h0) hdr 1 (by omega)
    exact hz
  · rw [hdr]
    exact (hhelper.2.2.1.2.1).trans (by norm_num [round1, roundHalfEven])

/-- C1 (witness): the amended theorem applied at the concrete
one-model-present scenario; the median mean cell is the rounded 290.1 and
the sole present mean cell's score is NaN. -/
theorem C1_witness :
    (buildRow ⟨fun v m => v == "tas" && m == "HadCM3B-M2.1aN", fun _ _ => (2901/10, 280, 300)⟩
        model_dict "tas"
        ⟨"Near-surface air temperature", some "temperature", "K", 3, "atmos"⟩).vals.getD
      (3 * 3 + 1) none = some (2901/10)
    ∧ ((compute_group_z_scores sqrtTrivial
        [buildRow ⟨fun v m => v == "tas" && m == "HadCM3B-M2.1aN", fun _ _ => (2901/10, 280, 300)⟩
          model_dict "tas"
          ⟨"Near-surface air temperature", some "temperature", "K", 3, "atmos"⟩]).getD 0 []).getD
      (3 * 3 + 1) none = none := by
  have h := C1_one_present_model
    ⟨fun v m => v == "tas" && m == "HadCM3B-M2.1aN", fun _ _ => (2901/10, 280, 300)⟩
    model_dict 3 (2901/10) 280 300 (by decide) (by decide)
    (by intro i hi hij
        have hi9 : i < 9 := by simpa using hi
        interval_cases i <;> first | (exact absurd rfl hij) | decide)
    rfl
  constructor
  · exact h.2.1.2.1
  · exact h.2.2.2.2 sqrtTrivial
      [buildRow ⟨fun v m => v == "tas" && m == "HadCM3B-M2.1aN", fun _ _ => (2901/10, 280, 300)⟩
        model_dict "tas"
        ⟨"Near-surface air temperature", some "temperature", "K", 3, "atmos"⟩]
      0 (by simp) rfl 1 (by omega)

end DeepMIP
